import Mathlib

/-!
Verification of the ARIA, PRESENT and SIMON block ciphers.

Shallow embedding of the three C implementations found under
src/algorithms (ARIA.c, PRESENT.c, SIMON.c).  Machine words are `Nat` with
an explicit `% 2 ^ w` wherever the corresponding C expression can wrap; the
substitution tables are `List Nat` read through `List.getD`, exactly as the
C reads its arrays.  Key schedules, round functions and encrypt/decrypt
orchestrators of each cipher are translated function by function, and the
claims of the specification (round-trip, known-answer vectors, diffusion
involution, key-schedule symmetry, key-length dispatch, purity of the
operations) are proved or refuted below.
-/

namespace CipherProofs

/-! ## Generic word/field toolkit

Facts about packing and extracting bit fields of `Nat` values, used to reason
about the byte-, nibble- and bit-level packing loops of the three ciphers. -/

theorem lor_shr (x y n : Nat) : (x ||| y) >>> n = x >>> n ||| y >>> n := by
  apply Nat.eq_of_testBit_eq
  intro i
  simp [Nat.testBit_shiftRight, Nat.testBit_lor]

theorem lor_mod_two_pow (x y n : Nat) :
    (x ||| y) % 2 ^ n = x % 2 ^ n ||| y % 2 ^ n := by
  apply Nat.eq_of_testBit_eq
  intro i
  simp only [Nat.testBit_mod_two_pow, Nat.testBit_lor]
  by_cases h : i < n <;> simp [h]

theorem xor_shr (x y n : Nat) : (x ^^^ y) >>> n = x >>> n ^^^ y >>> n := by
  apply Nat.eq_of_testBit_eq
  intro i
  simp [Nat.testBit_shiftRight, Nat.testBit_xor]

theorem xor_mod_two_pow (x y n : Nat) :
    (x ^^^ y) % 2 ^ n = x % 2 ^ n ^^^ y % 2 ^ n := by
  apply Nat.eq_of_testBit_eq
  intro i
  simp only [Nat.testBit_mod_two_pow, Nat.testBit_xor]
  by_cases h : i < n <;> simp [h]

theorem shiftLeft_lt {b : Nat} (s w : Nat) (hb : b < 2 ^ w) :
    b <<< s < 2 ^ (w + s) := by
  rw [Nat.shiftLeft_eq, Nat.pow_add]
  exact Nat.mul_lt_mul_of_lt_of_le hb (Nat.le_refl _) (by positivity)

/-- Extracting a field at the very position where it was inserted. -/
theorem field_hit {b : Nat} (s w : Nat) (hb : b < 2 ^ w) :
    (b <<< s) >>> s % 2 ^ w = b := by
  rw [Nat.shiftLeft_shiftRight, Nat.mod_eq_of_lt hb]

/-- A field inserted strictly below the extraction window reads as zero. -/
theorem field_above {b : Nat} (s q w : Nat) (hb : b < 2 ^ w) (h : s + w ≤ q) :
    (b <<< s) >>> q % 2 ^ w = 0 := by
  have hz : (b <<< s) >>> q = 0 := by
    rw [Nat.shiftLeft_eq, Nat.shiftRight_eq_div_pow]
    apply Nat.div_eq_of_lt
    calc b * 2 ^ s < 2 ^ w * 2 ^ s :=
          Nat.mul_lt_mul_of_lt_of_le hb (Nat.le_refl _) (by positivity)
    _ = 2 ^ (w + s) := (Nat.pow_add 2 w s).symm
    _ ≤ 2 ^ q := Nat.pow_le_pow_right (by omega) (by omega)
  rw [hz]
  simp

/-- A field inserted strictly above the extraction window reads as zero. -/
theorem field_below {b : Nat} (s q w : Nat) (h : q + w ≤ s) :
    (b <<< s) >>> q % 2 ^ w = 0 := by
  rw [Nat.shiftLeft_eq, Nat.shiftRight_eq_div_pow]
  have hs : 2 ^ s = 2 ^ (s - q - w) * 2 ^ w * 2 ^ q := by
    rw [← Nat.pow_add, ← Nat.pow_add]
    congr 1
    omega
  rw [hs, ← Nat.mul_assoc, Nat.mul_div_cancel _ (by positivity)]
  rw [Nat.mul_comm b, Nat.mul_assoc, Nat.mul_comm (2 ^ w), ← Nat.mul_assoc]
  exact Nat.mul_mod_left _ _

/-- The value of a sequence of `n` fields of width `w`, field `j` carrying
weight `2 ^ (w * j)`. -/
def fieldVal (w : Nat) (g : Nat → Nat) : Nat → Nat
  | 0 => 0
  | n + 1 => fieldVal w g n + g n * 2 ^ (w * n)

theorem fieldVal_lt (w : Nat) (g : Nat → Nat) (n : Nat)
    (hg : ∀ j, j < n → g j < 2 ^ w) : fieldVal w g n < 2 ^ (w * n) := by
  induction n with
  | zero => simp [fieldVal]
  | succ n ih =>
    have h1 : fieldVal w g n < 2 ^ (w * n) := ih fun j hj => hg j (by omega)
    have h2 : g n < 2 ^ w := hg n (by omega)
    have h3 : (g n + 1) * 2 ^ (w * n) ≤ 2 ^ w * 2 ^ (w * n) :=
      Nat.mul_le_mul_right _ (by omega)
    have h4 : 2 ^ w * 2 ^ (w * n) = 2 ^ (w * (n + 1)) := by
      rw [← Nat.pow_add]
      congr 1
      ring
    simp only [fieldVal]
    nlinarith [h1, h3, h4]

theorem fieldVal_congr (w : Nat) (g h : Nat → Nat) (n : Nat)
    (he : ∀ j, j < n → g j = h j) : fieldVal w g n = fieldVal w h n := by
  induction n with
  | zero => rfl
  | succ n ih =>
    simp only [fieldVal]
    rw [ih fun j hj => he j (by omega), he n (by omega)]

theorem fieldVal_extract (w : Nat) (g : Nat → Nat) (n q : Nat) (hq : q < n)
    (hg : ∀ j, j < n → g j < 2 ^ w) :
    fieldVal w g n >>> (w * q) % 2 ^ w = g q := by
  induction n with
  | zero => omega
  | succ n ih =>
    simp only [fieldVal]
    rcases Nat.lt_or_ge q n with hlt | hge
    · have hsplit : 2 ^ (w * n) = 2 ^ (w * n - w * q - w) * 2 ^ w * 2 ^ (w * q) := by
        rw [← Nat.pow_add, ← Nat.pow_add]
        congr 1
        have : w * q + w ≤ w * n := by
          calc w * q + w = w * (q + 1) := by ring
          _ ≤ w * n := Nat.mul_le_mul_left _ (by omega)
        omega
      rw [Nat.shiftRight_eq_div_pow, hsplit]
      rw [show g n * (2 ^ (w * n - w * q - w) * 2 ^ w * 2 ^ (w * q)) =
            g n * (2 ^ (w * n - w * q - w) * 2 ^ w) * 2 ^ (w * q) by ring]
      rw [Nat.add_mul_div_right _ _ (by positivity : (0:Nat) < 2 ^ (w * q))]
      rw [show g n * (2 ^ (w * n - w * q - w) * 2 ^ w) =
            g n * 2 ^ (w * n - w * q - w) * 2 ^ w by ring]
      rw [Nat.add_mul_mod_self_right]
      rw [← Nat.shiftRight_eq_div_pow]
      exact ih hlt fun j hj => hg j (by omega)
    · have hqn : q = n := by omega
      subst hqn
      have h1 : fieldVal w g q < 2 ^ (w * q) := fieldVal_lt w g q fun j hj => hg j (by omega)
      rw [Nat.shiftRight_eq_div_pow]
      rw [Nat.add_mul_div_right _ _ (by positivity : (0:Nat) < 2 ^ (w * q))]
      rw [Nat.div_eq_of_lt h1]
      rw [Nat.zero_add, Nat.mod_eq_of_lt (hg q (by omega))]

/-- Two numbers below `2 ^ (w * n)` with the same `n` fields of width `w`
are equal. -/
theorem eq_of_fields_eq (w : Nat) :
    ∀ (n x y : Nat), x < 2 ^ (w * n) → y < 2 ^ (w * n) →
    (∀ j, j < n → x >>> (w * j) % 2 ^ w = y >>> (w * j) % 2 ^ w) → x = y := by
  intro n
  induction n with
  | zero =>
    intro x y hx hy _
    simp only [Nat.mul_zero, Nat.pow_zero, Nat.lt_one_iff] at hx hy
    omega
  | succ n ih =>
    intro x y hx hy h
    have hlow : x % 2 ^ w = y % 2 ^ w := by
      have := h 0 (by omega)
      simpa using this
    have hdivlt : ∀ z : Nat, z < 2 ^ (w * (n + 1)) → z >>> w < 2 ^ (w * n) := by
      intro z hz
      rw [Nat.shiftRight_eq_div_pow]
      apply Nat.div_lt_of_lt_mul
      calc z < 2 ^ (w * (n + 1)) := hz
      _ = 2 ^ w * 2 ^ (w * n) := by rw [← Nat.pow_add]; congr 1; ring
      _ = 2 ^ w * 2 ^ (w * n) := rfl
    have hhigh : x >>> w = y >>> w := by
      apply ih _ _ (hdivlt x hx) (hdivlt y hy)
      intro j hj
      have := h (j + 1) (by omega)
      rw [show w * (j + 1) = w + w * j by ring, Nat.shiftRight_add,
        Nat.shiftRight_add] at this
      exact this
    have ex : x = 2 ^ w * (x >>> w) + x % 2 ^ w := by
      rw [Nat.shiftRight_eq_div_pow]
      exact (Nat.div_add_mod x (2 ^ w)).symm
    have ey : y = 2 ^ w * (y >>> w) + y % 2 ^ w := by
      rw [Nat.shiftRight_eq_div_pow]
      exact (Nat.div_add_mod y (2 ^ w)).symm
    rw [ex, ey, hlow, hhigh]

/-- Any number below `2 ^ (w * n)` is the packed value of its own fields. -/
theorem fieldVal_decomp (w n x : Nat) (hx : x < 2 ^ (w * n)) :
    fieldVal w (fun j => x >>> (w * j) % 2 ^ w) n = x := by
  apply eq_of_fields_eq w n _ x
  · exact fieldVal_lt w _ n fun j _ => Nat.mod_lt _ (by positivity)
  · exact hx
  · intro j hj
    rw [fieldVal_extract w _ n j hj fun k _ => Nat.mod_lt _ (by positivity)]

/-- Horner accumulation of bits, most significant first, as done by the
shift-and-or loop of the inverse permutation layer of PRESENT. -/
def revVal (g : Nat → Nat) : Nat → Nat
  | 0 => 0
  | n + 1 => 2 * revVal g n + g n

theorem revVal_congr (g h : Nat → Nat) (n : Nat)
    (he : ∀ j, j < n → g j = h j) : revVal g n = revVal h n := by
  induction n with
  | zero => rfl
  | succ n ih =>
    simp only [revVal]
    rw [ih fun j hj => he j (by omega), he n (by omega)]

theorem fieldVal_cons (w a : Nat) (g : Nat → Nat) (n : Nat) :
    fieldVal w (fun j => match j with | 0 => a | j + 1 => g j) (n + 1) =
      a + 2 ^ w * fieldVal w g n := by
  induction n with
  | zero => simp [fieldVal]
  | succ n ih =>
    rw [show n + 1 + 1 = (n + 1) + 1 by rfl]
    simp only [fieldVal] at ih ⊢
    rw [ih]
    have : 2 ^ (w * (n + 1)) = 2 ^ w * 2 ^ (w * n) := by
      rw [← Nat.pow_add]
      congr 1
      ring
    rw [this]
    ring

theorem revVal_eq_fieldVal (g : Nat → Nat) (n : Nat) :
    revVal g n = fieldVal 1 (fun j => g (n - 1 - j)) n := by
  induction n with
  | zero => rfl
  | succ n ih =>
    simp only [revVal]
    rw [ih]
    have hcons := fieldVal_cons 1 (g n) (fun j => g (n - 1 - j)) n
    have : fieldVal 1 (fun j => match j with | 0 => g n | j + 1 => g (n - 1 - j)) (n + 1) =
        fieldVal 1 (fun j => g (n + 1 - 1 - j)) (n + 1) := by
      apply fieldVal_congr
      intro j hj
      match j with
      | 0 => simp
      | j + 1 =>
        have : n - 1 - j = n + 1 - 1 - (j + 1) := by omega
        simp only [this]
    rw [← this, hcons]
    ring

theorem xor_left_comm (a b c : Nat) : a ^^^ (b ^^^ c) = b ^^^ (a ^^^ c) := by
  rw [← Nat.xor_assoc, Nat.xor_comm a b, Nat.xor_assoc]

theorem shr_le_self (x n : Nat) : x >>> n ≤ x := by
  rw [Nat.shiftRight_eq_div_pow]
  exact Nat.div_le_self x _

/-- An unshifted small value read above its width is zero. -/
theorem plain_above {b : Nat} (q w : Nat) (hb : b < 2 ^ w) (h : w ≤ q) :
    b >>> q % 2 ^ w = 0 := by
  rw [Nat.shiftRight_eq_div_pow,
    Nat.div_eq_of_lt (lt_of_lt_of_le hb (Nat.pow_le_pow_right (by omega) h))]
  simp

theorem field_lor (x y q w : Nat) :
    (x ||| y) >>> q % 2 ^ w = x >>> q % 2 ^ w ||| y >>> q % 2 ^ w := by
  rw [lor_shr, lor_mod_two_pow]

theorem bit_hit {b : Nat} (hb : b ≤ 1) (s : Nat) : (b <<< s) >>> s &&& 1 = b := by
  rw [Nat.and_one_is_mod, show (2 : Nat) = 2 ^ 1 by norm_num]
  exact field_hit s 1 (by omega)

theorem bit_miss {b : Nat} (hb : b ≤ 1) (s q : Nat) (h : s ≠ q) :
    (b <<< s) >>> q &&& 1 = 0 := by
  rw [Nat.and_one_is_mod, show (2 : Nat) = 2 ^ 1 by norm_num]
  rcases Nat.lt_or_ge s q with hlt | hge
  · exact field_above s q 1 (by omega) (by omega)
  · exact field_below s q 1 (by omega)

theorem bit_lor (x y q : Nat) :
    (x ||| y) >>> q &&& 1 = (x >>> q &&& 1) ||| (y >>> q &&& 1) := by
  rw [Nat.and_one_is_mod, Nat.and_one_is_mod, Nat.and_one_is_mod,
    show (2 : Nat) = 2 ^ 1 by norm_num, field_lor]

theorem shiftLeft_one_lor (t b : Nat) (hb : b ≤ 1) : (t <<< 1) ||| b = 2 * t + b := by
  have h := Nat.mul_add_lt_is_or (show b < 2 ^ 1 by omega) t
  norm_num at h
  have h2 : t <<< 1 = 2 * t := by rw [Nat.shiftLeft_eq]; ring
  rw [h2]
  exact h.symm

theorem getD_lt_of_forall {m : Nat} (l : List Nat) (h : ∀ r ∈ l, r < 2 ^ m)
    (i : Nat) : l.getD i 0 < 2 ^ m := by
  by_cases hi : i < l.length
  · rw [List.getD_eq_getElem l 0 hi]
    exact h _ (List.getElem_mem hi)
  · rw [List.getD_eq_default _ _ (by omega)]
    positivity

theorem field_hit256 {b : Nat} (s : Nat) (hb : b < 256) :
    (b <<< s) >>> s % 256 = b := by
  rw [show (256:Nat) = 2 ^ 8 by norm_num] at hb ⊢
  exact field_hit s 8 hb

theorem field_above256 {b : Nat} (s q : Nat) (hb : b < 256) (h : s + 8 ≤ q) :
    (b <<< s) >>> q % 256 = 0 := by
  rw [show (256:Nat) = 2 ^ 8 by norm_num] at hb ⊢
  exact field_above s q 8 hb h

theorem field_below256 {b : Nat} (s q : Nat) (h : q + 8 ≤ s) :
    (b <<< s) >>> q % 256 = 0 := by
  rw [show (256:Nat) = 2 ^ 8 by norm_num]
  exact field_below s q 8 h

theorem field_lor256 (x y q : Nat) :
    (x ||| y) >>> q % 256 = x >>> q % 256 ||| y >>> q % 256 := by
  rw [show (256:Nat) = 2 ^ 8 by norm_num]
  exact field_lor x y q 8

theorem plain_above256 {b : Nat} (q : Nat) (hb : b < 256) (h : 8 ≤ q) :
    b >>> q % 256 = 0 := by
  rw [show (256:Nat) = 2 ^ 8 by norm_num] at hb ⊢
  exact plain_above q 8 hb h


/-! ## SIMON

Embedding of `src/algorithms/SIMON/SIMON.c`: 128-bit blocks as pairs of
64-bit words, 128/192/256-bit keys. -/

namespace SIMON

def ROL_64 (x n : Nat) : Nat := ((x <<< n) % 2 ^ 64) ||| x >>> (64 - n)

def ROR_64 (x n : Nat) : Nat := x >>> n ||| ((x <<< (64 - n)) % 2 ^ 64)

def f (x : Nat) : Nat := (ROL_64 x 1 &&& ROL_64 x 8) ^^^ ROL_64 x 2

def c : Nat := 0xfffffffffffffffc

structure SimonContext where
  nrSubkeys : Nat
  subkeys : List Nat

/-- The regular key-schedule recurrence for 128-bit keys (2-word state):
subkeys i = c xor (z and 1) xor subkeys (i-2) xor ror (subkeys (i-1)) 3
xor ror (subkeys (i-1)) 4, with z shifted right once per step. -/
def seq2 (z km2 km1 : Nat) : Nat → List Nat
  | 0 => []
  | n + 1 =>
    let k := c ^^^ (z &&& 1) ^^^ km2 ^^^ ROR_64 km1 3 ^^^ ROR_64 km1 4
    k :: seq2 (z >>> 1) km1 k n

/-- The regular key-schedule recurrence for 192-bit keys (3-word state). -/
def seq3 (z km3 km2 km1 : Nat) : Nat → List Nat
  | 0 => []
  | n + 1 =>
    let k := c ^^^ (z &&& 1) ^^^ km3 ^^^ ROR_64 km1 3 ^^^ ROR_64 km1 4
    k :: seq3 (z >>> 1) km2 km1 k n

/-- The regular key-schedule recurrence for 256-bit keys (4-word state,
with the extra `subkeys (i-3)` terms). -/
def seq4 (z km4 km3 km2 km1 : Nat) : Nat → List Nat
  | 0 => []
  | n + 1 =>
    let k := c ^^^ (z &&& 1) ^^^ km4 ^^^ ROR_64 km1 3 ^^^ km3 ^^^
      ROR_64 km1 4 ^^^ ROR_64 km3 1
    k :: seq4 (z >>> 1) km3 km2 km1 k n

def SIMON_init (key : List Nat) (keyLen : Nat) : SimonContext :=
  if keyLen = 128 then
    let k0 := key.getD 1 0
    let k1 := key.getD 0 0
    let ks := k0 :: k1 :: seq2 0x7369f885192c0ef5 k0 k1 64
    let k66 := c ^^^ 1 ^^^ ks.getD 64 0 ^^^ ROR_64 (ks.getD 65 0) 3 ^^^
      ROR_64 (ks.getD 65 0) 4
    let k67 := c ^^^ ks.getD 65 0 ^^^ ROR_64 k66 3 ^^^ ROR_64 k66 4
    ⟨68, ks ++ [k66, k67]⟩
  else if keyLen = 192 then
    let k0 := key.getD 2 0
    let k1 := key.getD 1 0
    let k2 := key.getD 0 0
    let ks := k0 :: k1 :: k2 :: seq3 0xfc2ce51207a635db k0 k1 k2 64
    let k67 := c ^^^ ks.getD 64 0 ^^^ ROR_64 (ks.getD 66 0) 3 ^^^
      ROR_64 (ks.getD 66 0) 4
    let k68 := c ^^^ 1 ^^^ ks.getD 65 0 ^^^ ROR_64 k67 3 ^^^ ROR_64 k67 4
    ⟨69, ks ++ [k67, k68]⟩
  else
    let k0 := key.getD 3 0
    let k1 := key.getD 2 0
    let k2 := key.getD 1 0
    let k3 := key.getD 0 0
    let ks := k0 :: k1 :: k2 :: k3 :: seq4 0xfdc94c3a046d678b k0 k1 k2 k3 64
    let k68 := c ^^^ ks.getD 64 0 ^^^ ROR_64 (ks.getD 67 0) 3 ^^^ ks.getD 65 0 ^^^
      ROR_64 (ks.getD 67 0) 4 ^^^ ROR_64 (ks.getD 65 0) 1
    let k69 := c ^^^ 1 ^^^ ks.getD 65 0 ^^^ ROR_64 k68 3 ^^^ ks.getD 66 0 ^^^
      ROR_64 k68 4 ^^^ ROR_64 (ks.getD 66 0) 1
    let k70 := c ^^^ ks.getD 66 0 ^^^ ROR_64 k69 3 ^^^ ks.getD 67 0 ^^^
      ROR_64 k69 4 ^^^ ROR_64 (ks.getD 67 0) 1
    let k71 := c ^^^ ks.getD 67 0 ^^^ ROR_64 k70 3 ^^^ k68 ^^^
      ROR_64 k70 4 ^^^ ROR_64 k68 1
    ⟨72, ks ++ [k68, k69, k70, k71]⟩

/-- The two-round macro `R2(&x, &y, k, l)`. -/
def R2 (k l : Nat) (xy : Nat × Nat) : Nat × Nat :=
  let y1 := xy.2 ^^^ f xy.1 ^^^ k
  let x1 := xy.1 ^^^ f y1 ^^^ l
  (x1, y1)

/-- The encryption loop: `n` applications of `R2` with subkey indices
`i, i+1`, `i+2, i+3`, ... -/
def encN (ks : Nat → Nat) : Nat → Nat → Nat × Nat → Nat × Nat
  | 0, _, xy => xy
  | n + 1, i, xy => encN ks n (i + 2) (R2 (ks i) (ks (i + 1)) xy)

/-- One decryption loop body, `R2(&y, &x, subkeys i, subkeys (i-1))`. -/
def decStep (ks : Nat → Nat) (i : Nat) (xy : Nat × Nat) : Nat × Nat :=
  let x1 := xy.1 ^^^ f xy.2 ^^^ ks i
  let y1 := xy.2 ^^^ f x1 ^^^ ks (i - 1)
  (x1, y1)

/-- The decryption loop: `n` steps with top subkey index `i` descending
by 2 each time. -/
def decN (ks : Nat → Nat) : Nat → Nat → Nat × Nat → Nat × Nat
  | 0, _, xy => xy
  | n + 1, i, xy => decN ks n (i - 2) (decStep ks i xy)

def SIMON_encrypt (ctx : SimonContext) (block : Nat × Nat) : Nat × Nat :=
  let ks := fun i => ctx.subkeys.getD i 0
  if ctx.nrSubkeys = 69 then
    let xy := encN ks 34 0 block
    (xy.2 ^^^ f xy.1 ^^^ ks 68, xy.1)
  else
    encN ks ((ctx.nrSubkeys + 1) / 2) 0 block

def SIMON_decrypt (ctx : SimonContext) (block : Nat × Nat) : Nat × Nat :=
  let ks := fun i => ctx.subkeys.getD i 0
  if ctx.nrSubkeys = 69 then
    let x0 := block.2
    decN ks 34 67 (x0, block.1 ^^^ ks 68 ^^^ f x0)
  else
    decN ks ((ctx.nrSubkeys + 1) / 2) (ctx.nrSubkeys - 1) block

theorem encN_succ_back (ks : Nat → Nat) :
    ∀ (n i : Nat) (xy : Nat × Nat),
    encN ks (n + 1) i xy =
      R2 (ks (i + 2 * n)) (ks (i + 2 * n + 1)) (encN ks n i xy) := by
  intro n
  induction n with
  | zero =>
    intro i xy
    simp [encN]
  | succ n ih =>
    intro i xy
    show encN ks (n + 1) (i + 2) (R2 (ks i) (ks (i + 1)) xy) = _
    rw [ih]
    have h1 : i + 2 + 2 * n = i + 2 * (n + 1) := by ring
    rw [h1]
    rfl

theorem decStep_R2 (ks : Nat → Nat) (j : Nat) (xy : Nat × Nat) :
    decStep ks (j + 1) (R2 (ks j) (ks (j + 1)) xy) = xy := by
  obtain ⟨x, y⟩ := xy
  simp [decStep, R2, Nat.xor_assoc, Nat.xor_comm, xor_left_comm, Nat.xor_self,
    Nat.xor_zero, Nat.zero_xor, Nat.xor_cancel_left]

theorem decN_encN (ks : Nat → Nat) :
    ∀ (n i : Nat) (xy : Nat × Nat),
    decN ks n (i + 2 * n - 1) (encN ks n i xy) = xy := by
  intro n
  induction n with
  | zero =>
    intro i xy
    rfl
  | succ n ih =>
    intro i xy
    rw [encN_succ_back]
    have hJ : i + 2 * (n + 1) - 1 = i + 2 * n + 1 := by omega
    rw [hJ]
    show decN ks n (i + 2 * n + 1 - 2) (decStep ks (i + 2 * n + 1) _) = xy
    rw [decStep_R2]
    have h2 : i + 2 * n + 1 - 2 = i + 2 * n - 1 := by omega
    rw [h2]
    exact ih i xy

/-- A SIMON context whose round count is one of the three the schedule
produces decrypts what it encrypts, whatever the subkeys are. -/
theorem SIMON_decrypt_encrypt (ctx : SimonContext) (b : Nat × Nat)
    (h : ctx.nrSubkeys = 68 ∨ ctx.nrSubkeys = 69 ∨ ctx.nrSubkeys = 72) :
    SIMON_decrypt ctx (SIMON_encrypt ctx b) = b := by
  rcases h with h | h | h
  · simp only [SIMON_encrypt, SIMON_decrypt, h]
    norm_num
    have := decN_encN (fun i => ctx.subkeys.getD i 0) 34 0 b
    simpa using this
  · set ks := fun i => ctx.subkeys.getD i 0 with hks
    have he : SIMON_encrypt ctx b =
        ((encN ks 34 0 b).2 ^^^ f (encN ks 34 0 b).1 ^^^ ks 68,
          (encN ks 34 0 b).1) := by
      simp [SIMON_encrypt, h, hks]
    have hd : ∀ blk : Nat × Nat, SIMON_decrypt ctx blk =
        decN ks 34 67 (blk.2, blk.1 ^^^ ks 68 ^^^ f blk.2) := by
      intro blk
      simp [SIMON_decrypt, h, hks]
    rw [he, hd]
    have hy : (encN ks 34 0 b).2 ^^^ f (encN ks 34 0 b).1 ^^^ ks 68 ^^^ ks 68 ^^^
        f (encN ks 34 0 b).1 = (encN ks 34 0 b).2 := by
      simp [Nat.xor_assoc, Nat.xor_comm, xor_left_comm, Nat.xor_self,
        Nat.xor_zero, Nat.zero_xor, Nat.xor_cancel_left]
    show decN ks 34 67 ((encN ks 34 0 b).1,
      (encN ks 34 0 b).2 ^^^ f (encN ks 34 0 b).1 ^^^ ks 68 ^^^ ks 68 ^^^
        f (encN ks 34 0 b).1) = b
    rw [hy]
    have hpair : ((encN ks 34 0 b).1, (encN ks 34 0 b).2) = encN ks 34 0 b := rfl
    rw [hpair]
    have hmain := decN_encN ks 34 0 b
    simpa using hmain
  · simp only [SIMON_encrypt, SIMON_decrypt, h]
    norm_num
    have := decN_encN (fun i => ctx.subkeys.getD i 0) 36 0 b
    simpa using this

end SIMON

/-! ## PRESENT

Embedding of `src/algorithms/PRESENT/PRESENT.c`: 64-bit blocks handled as
quadruples of 16-bit words, 80/128-bit keys given as lists of 16-bit words. -/

namespace PRESENT

def sbox : List Nat :=
  [0xc, 0x5, 0x6, 0xb, 0x9, 0x0, 0xa, 0xd, 0x3, 0xe, 0xf, 0x8, 0x4, 0x7, 0x1, 0x2]

def isbox : List Nat :=
  [0x5, 0xe, 0xf, 0x8, 0xc, 0x1, 0x2, 0xd, 0xb, 0x4, 0x6, 0x3, 0x0, 0x7, 0x9, 0xa]

def p : List Nat :=
  [0, 16, 32, 48, 1, 17, 33, 49, 2, 18, 34, 50, 3, 19, 35, 51,
   4, 20, 36, 52, 5, 21, 37, 53, 6, 22, 38, 54, 7, 23, 39, 55,
   8, 24, 40, 56, 9, 25, 41, 57, 10, 26, 42, 58, 11, 27, 43, 59,
   12, 28, 44, 60, 13, 29, 45, 61, 14, 30, 46, 62, 15, 31, 47, 63]

def sboxV (b : Nat) : Nat := sbox.getD b 0

def pfun (i : Nat) : Nat := p.getD i 0

/-- One byte through the substitution layer: high and low nibble through
the table, repacked. -/
def sbB (tab : List Nat) (b : Nat) : Nat :=
  (tab.getD ((b >>> 4) &&& 0x0f) 0) <<< 4 ||| tab.getD (b &&& 0x0f) 0

/-- The substitution-layer loop of `PRESENT_encrypt`/`PRESENT_decrypt`
after `i` of its 8 iterations (byte `i` counted from the top). -/
def sAcc (tab : List Nat) (st : Nat) : Nat → Nat
  | 0 => 0
  | i + 1 => sAcc tab st i |||
      (sbB tab ((st >>> (8 * (7 - i))) % 256)) <<< (56 - 8 * i)

def sLayer (tab : List Nat) (st : Nat) : Nat := sAcc tab st 8

/-- The permutation-layer loop of `PRESENT_encrypt` after `i` of its 64
iterations. -/
def pAcc (st : Nat) : Nat → Nat
  | 0 => 0
  | i + 1 => pAcc st i ||| ((st >>> (63 - i)) &&& 0x1) <<< (63 - pfun i)

def pLayer (st : Nat) : Nat := pAcc st 64

/-- The inverse-permutation loop of `PRESENT_decrypt` after `i` of its 64
iterations (shift-and-or accumulation). -/
def ipAcc (st : Nat) : Nat → Nat
  | 0 => 0
  | i + 1 => (ipAcc st i <<< 1) ||| ((st >>> (63 - pfun i)) &&& 0x1)

def ipLayer (st : Nat) : Nat := ipAcc st 64

/-- One iteration of the 80-bit key-schedule loop: rotate the 80-bit
register left 61, top nibble through the S-box, XOR the round counter. -/
def p80Step (kh kl i : Nat) : Nat × Nat :=
  let t := kh
  let kh1 := (kl >>> 3) &&& 0xffff
  let kl1 := ((kl <<< 61) % 2 ^ 64) ||| ((t <<< 45) % 2 ^ 64) ||| (kl >>> 19)
  let t2 := sboxV ((kh1 >>> 12) &&& 0xf)
  let kh2 := (kh1 &&& 0x0fff) ||| (t2 <<< 12)
  let kl2 := kl1 ^^^ (i <<< 15)
  (kh2, kl2)

def p80Loop (kh kl i : Nat) : Nat → List Nat
  | 0 => []
  | n + 1 =>
    let s := p80Step kh kl i
    (((s.1 <<< 48) % 2 ^ 64) ||| (s.2 >>> 16)) :: p80Loop s.1 s.2 (i + 1) n

/-- One iteration of the 128-bit key-schedule loop.  Note the two
`keyHigh |= ...` OR-assignments of the C source, kept as written. -/
def p128Step (kh kl i : Nat) : Nat × Nat :=
  let t := kh
  let kh1 := ((t <<< 61) % 2 ^ 64) ||| (kl >>> 3)
  let kl1 := ((kl <<< 61) % 2 ^ 64) ||| (t >>> 3)
  let t2 := sboxV ((kh1 >>> 60) &&& 0xf)
  let kh2 := kh1 ||| (t2 <<< 60)
  let t3 := sboxV ((kh2 >>> 56) &&& 0xf)
  let kh3 := kh2 ||| (t3 <<< 56)
  let kh4 := kh3 ^^^ (i >>> 2)
  let kl2 := kl1 ^^^ ((i <<< 62) % 2 ^ 64)
  (kh4, kl2)

def p128Loop (kh kl i : Nat) : Nat → List Nat
  | 0 => []
  | n + 1 =>
    let s := p128Step kh kl i
    s.1 :: p128Loop s.1 s.2 (i + 1) n

def PRESENT_init (key : List Nat) (keyLen : Nat) : List Nat :=
  if keyLen = 80 then
    let kh := key.getD 0 0
    let kl := (key.getD 1 0) <<< 48 ||| (key.getD 2 0) <<< 32 |||
      (key.getD 3 0) <<< 16 ||| key.getD 4 0
    (((kh <<< 48) % 2 ^ 64) ||| (kl >>> 16)) :: p80Loop kh kl 1 31
  else
    let kh := (key.getD 0 0) <<< 48 ||| (key.getD 1 0) <<< 32 |||
      (key.getD 2 0) <<< 16 ||| key.getD 3 0
    let kl := (key.getD 4 0) <<< 48 ||| (key.getD 5 0) <<< 32 |||
      (key.getD 6 0) <<< 16 ||| key.getD 7 0
    kh :: p128Loop kh kl 1 31

/-- State after the first `n` encryption rounds (add round key, S-box
layer, permutation layer). -/
def encRounds (ks : Nat → Nat) : Nat → Nat → Nat
  | 0, st => st
  | n + 1, st => pLayer (sLayer sbox (encRounds ks n st ^^^ ks n))

/-- The decryption loop run from round key `n` down to round key 1
(add round key, inverse permutation, inverse S-box layer). -/
def decRounds (ks : Nat → Nat) : Nat → Nat → Nat
  | 0, st => st
  | n + 1, st => decRounds ks n (sLayer isbox (ipLayer (st ^^^ ks (n + 1))))

def loadBlock (b : Nat × Nat × Nat × Nat) : Nat :=
  b.1 <<< 48 ||| b.2.1 <<< 32 ||| b.2.2.1 <<< 16 ||| b.2.2.2

def splitBlock (st : Nat) : Nat × Nat × Nat × Nat :=
  (st >>> 48 % 2 ^ 16, st >>> 32 % 2 ^ 16, st >>> 16 % 2 ^ 16, st % 2 ^ 16)

def PRESENT_encrypt (rk : List Nat) (block : Nat × Nat × Nat × Nat) :
    Nat × Nat × Nat × Nat :=
  let ks := fun r => rk.getD r 0
  splitBlock (encRounds ks 31 (loadBlock block) ^^^ ks 31)

def PRESENT_decrypt (rk : List Nat) (block : Nat × Nat × Nat × Nat) :
    Nat × Nat × Nat × Nat :=
  let ks := fun r => rk.getD r 0
  splitBlock (decRounds ks 31 (loadBlock block) ^^^ ks 0)

theorem sbox_getD_lt : ∀ v : Nat, sbox.getD v 0 < 16 := by
  intro v
  by_cases h : v < 16
  · interval_cases v <;> decide
  · rw [List.getD_eq_default _ _ (by simp [sbox]; omega)]
    norm_num

theorem isbox_getD_lt : ∀ v : Nat, isbox.getD v 0 < 16 := by
  intro v
  by_cases h : v < 16
  · interval_cases v <;> decide
  · rw [List.getD_eq_default _ _ (by simp [isbox]; omega)]
    norm_num

theorem sbB_lt (tab : List Nat) (h : ∀ v, tab.getD v 0 < 16) (b : Nat) :
    sbB tab b < 256 := by
  have h1 : (tab.getD ((b >>> 4) &&& 0x0f) 0) <<< 4 < 2 ^ 8 :=
    shiftLeft_lt 4 4 (by rw [show (2:Nat) ^ 4 = 16 by norm_num]; exact h _)
  have h2 : tab.getD (b &&& 0x0f) 0 < 2 ^ 8 :=
    lt_trans (h _) (by norm_num)
  have := Nat.or_lt_two_pow h1 h2
  rw [sbB]
  omega

set_option maxRecDepth 4000 in
/-- The inverse S-box undoes the S-box on every byte. -/
theorem sbB_isbox_sbox : ∀ b, b < 256 → sbB isbox (sbB sbox b) = b := by decide

theorem pfun_le : ∀ i, i < 64 → pfun i ≤ 63 := by decide

theorem pfun_inj : ∀ i, i < 64 → ∀ j, j < 64 → pfun i = pfun j → i = j := by decide

theorem pos_ne (i j : Nat) (hi : i < 64) (hj : j < 64) (hne : i ≠ j) :
    63 - pfun i ≠ 63 - pfun j := by
  have h1 := pfun_le i hi
  have h2 := pfun_le j hj
  intro he
  exact hne (pfun_inj i hi j hj (by omega))

theorem sAcc_lt (tab : List Nat) (h : ∀ v, tab.getD v 0 < 16) (st : Nat) :
    ∀ n, n ≤ 8 → sAcc tab st n < 2 ^ 64 := by
  intro n
  induction n with
  | zero =>
    intro _
    simp [sAcc]
  | succ n ih =>
    intro hn
    simp only [sAcc]
    apply Nat.or_lt_two_pow (ih (by omega))
    have h1 : sbB tab ((st >>> (8 * (7 - n))) % 256) < 2 ^ 8 := by
      rw [show (2:Nat) ^ 8 = 256 by norm_num]
      exact sbB_lt tab h _
    exact lt_of_lt_of_le (shiftLeft_lt (56 - 8 * n) 8 h1)
      (Nat.pow_le_pow_right (by omega) (by omega))

theorem sAcc_field_zero (tab : List Nat) (h : ∀ v, tab.getD v 0 < 16)
    (st j : Nat) (hj : j < 8) :
    ∀ n, n ≤ 7 - j → sAcc tab st n >>> (8 * j) % 256 = 0 := by
  intro n
  induction n with
  | zero =>
    intro _
    simp [sAcc]
  | succ n ih =>
    intro hn
    simp only [sAcc]
    rw [field_lor256, ih (by omega), field_below256 _ _ (by omega)]
    simp

theorem sAcc_field_hit (tab : List Nat) (h : ∀ v, tab.getD v 0 < 16)
    (st j : Nat) (hj : j < 8) :
    ∀ n, 8 - j ≤ n → n ≤ 8 →
    sAcc tab st n >>> (8 * j) % 256 = sbB tab ((st >>> (8 * j)) % 256) := by
  intro n
  induction n with
  | zero =>
    intro h1 _
    omega
  | succ n ih =>
    intro h1 h2
    simp only [sAcc]
    rw [field_lor256]
    by_cases hbase : n + 1 = 8 - j
    · rw [sAcc_field_zero tab h st j hj n (by omega)]
      have hshift : 56 - 8 * n = 8 * j := by omega
      have harg : 7 - n = j := by omega
      rw [hshift, harg, field_hit256 (8 * j) (sbB_lt tab h _)]
      simp [Nat.zero_or]
    · rw [ih (by omega) (by omega),
        field_above256 _ _ (sbB_lt tab h _) (by omega)]
      simp [Nat.or_zero]

/-- The inverse substitution layer undoes the substitution layer. -/
theorem sLayer_inv (st : Nat) (hst : st < 2 ^ 64) :
    sLayer isbox (sLayer sbox st) = st := by
  have h64 : (2:Nat) ^ 64 = 2 ^ (8 * 8) := by norm_num
  apply eq_of_fields_eq 8 8
  · rw [← h64]
    exact sAcc_lt isbox isbox_getD_lt _ 8 (le_refl 8)
  · rw [← h64]
    exact hst
  · intro j hj
    rw [show (2:Nat) ^ 8 = 256 by norm_num]
    simp only [sLayer]
    rw [sAcc_field_hit isbox isbox_getD_lt _ j hj 8 (by omega) (by omega),
      sAcc_field_hit sbox sbox_getD_lt st j hj 8 (by omega) (by omega),
      sbB_isbox_sbox _ (Nat.mod_lt _ (by norm_num))]

theorem pAcc_lt (st : Nat) : ∀ n, n ≤ 64 → pAcc st n < 2 ^ 64 := by
  intro n
  induction n with
  | zero =>
    intro _
    simp [pAcc]
  | succ n ih =>
    intro hn
    simp only [pAcc]
    apply Nat.or_lt_two_pow (ih (by omega))
    have h1 : (st >>> (63 - n)) &&& 0x1 < 2 ^ 1 := by
      have := @Nat.and_le_right (st >>> (63 - n)) 0x1
      omega
    exact lt_of_lt_of_le (shiftLeft_lt (63 - pfun n) 1 h1)
      (Nat.pow_le_pow_right (by omega) (by omega))

theorem pLayer_lt (st : Nat) : pLayer st < 2 ^ 64 := pAcc_lt st 64 (le_refl 64)

theorem pAcc_bit_zero (st i0 : Nat) (h0 : i0 < 64) :
    ∀ n, n ≤ i0 → pAcc st n >>> (63 - pfun i0) &&& 1 = 0 := by
  intro n
  induction n with
  | zero =>
    intro _
    simp [pAcc]
  | succ n ih =>
    intro hn
    simp only [pAcc]
    rw [bit_lor, ih (by omega),
      bit_miss Nat.and_le_right _ _ (pos_ne n i0 (by omega) h0 (by omega))]
    simp

theorem pAcc_bit_hit (st i0 : Nat) (h0 : i0 < 64) :
    ∀ n, i0 < n → n ≤ 64 →
    pAcc st n >>> (63 - pfun i0) &&& 1 = (st >>> (63 - i0)) &&& 1 := by
  intro n
  induction n with
  | zero =>
    intro h1 _
    omega
  | succ n ih =>
    intro h1 h2
    simp only [pAcc]
    rw [bit_lor]
    by_cases hb : n = i0
    · subst hb
      rw [pAcc_bit_zero st n h0 n (le_refl n), bit_hit Nat.and_le_right _]
      simp [Nat.zero_or]
    · rw [ih (by omega) (by omega),
        bit_miss Nat.and_le_right _ _ (pos_ne n i0 (by omega) h0 hb)]
      simp [Nat.or_zero]

theorem ipAcc_eq_revVal (st : Nat) :
    ∀ n, ipAcc st n = revVal (fun i => (st >>> (63 - pfun i)) &&& 0x1) n := by
  intro n
  induction n with
  | zero => rfl
  | succ n ih =>
    simp only [ipAcc, revVal]
    rw [ih, shiftLeft_one_lor _ _ Nat.and_le_right]

/-- The inverse permutation layer undoes the permutation layer. -/
theorem ipLayer_pLayer (st : Nat) (hst : st < 2 ^ 64) : ipLayer (pLayer st) = st := by
  rw [ipLayer, ipAcc_eq_revVal]
  have hc : revVal (fun i => (pLayer st >>> (63 - pfun i)) &&& 0x1) 64 =
      revVal (fun i => (st >>> (63 - i)) &&& 0x1) 64 := by
    apply revVal_congr
    intro i hi
    exact pAcc_bit_hit st i hi 64 hi (le_refl 64)
  rw [hc, revVal_eq_fieldVal]
  have hc2 : fieldVal 1 (fun j => (fun i => (st >>> (63 - i)) &&& 0x1) (64 - 1 - j)) 64 =
      fieldVal 1 (fun j => st >>> (1 * j) % 2 ^ 1) 64 := by
    apply fieldVal_congr
    intro j hj
    have he : 63 - (64 - 1 - j) = j := by omega
    simp only [he]
    rw [Nat.and_one_is_mod]
    norm_num
  rw [hc2]
  have := fieldVal_decomp 1 64 st (by norm_num; exact hst)
  exact this

theorem encRounds_lt (ks : Nat → Nat) (st : Nat) (hst : st < 2 ^ 64) :
    ∀ n, encRounds ks n st < 2 ^ 64 := by
  intro n
  cases n with
  | zero => exact hst
  | succ n => exact pLayer_lt _

/-- Each decryption round undoes the matching encryption round. -/
theorem decRounds_encRounds (ks : Nat → Nat) (hks : ∀ r, ks r < 2 ^ 64)
    (st : Nat) (hst : st < 2 ^ 64) :
    ∀ n, decRounds ks n (encRounds ks n st ^^^ ks n) = st ^^^ ks 0 := by
  intro n
  induction n with
  | zero => rfl
  | succ n ih =>
    show decRounds ks n
      (sLayer isbox (ipLayer (encRounds ks (n + 1) st ^^^ ks (n + 1) ^^^ ks (n + 1)))) = _
    rw [Nat.xor_cancel_right]
    show decRounds ks n
      (sLayer isbox (ipLayer (pLayer (sLayer sbox (encRounds ks n st ^^^ ks n))))) = _
    have hb1 : sLayer sbox (encRounds ks n st ^^^ ks n) < 2 ^ 64 :=
      sAcc_lt sbox sbox_getD_lt _ 8 (le_refl 8)
    rw [ipLayer_pLayer _ hb1,
      sLayer_inv _ (Nat.xor_lt_two_pow (encRounds_lt ks st hst n) (hks n))]
    exact ih

theorem p80Step_snd_lt (kh kl i : Nat) (hkl : kl < 2 ^ 64) (hi : i ≤ 32) :
    (p80Step kh kl i).2 < 2 ^ 64 := by
  show ((kl <<< 61) % 2 ^ 64 ||| (kh <<< 45) % 2 ^ 64 ||| kl >>> 19) ^^^ (i <<< 15)
    < 2 ^ 64
  apply Nat.xor_lt_two_pow
  · exact Nat.or_lt_two_pow
      (Nat.or_lt_two_pow (Nat.mod_lt _ (by positivity)) (Nat.mod_lt _ (by positivity)))
      (lt_of_le_of_lt (shr_le_self kl 19) hkl)
  · exact lt_of_lt_of_le (shiftLeft_lt 15 6 (by omega)) (Nat.pow_le_pow_right (by omega) (by omega))

theorem p80Loop_lt : ∀ (n kh kl i : Nat), kl < 2 ^ 64 → i + n ≤ 32 →
    ∀ r ∈ p80Loop kh kl i n, r < 2 ^ 64 := by
  intro n
  induction n with
  | zero =>
    intro kh kl i _ _ r hr
    simp [p80Loop] at hr
  | succ n ih =>
    intro kh kl i hkl hi r hr
    simp only [p80Loop, List.mem_cons] at hr
    have h2 := p80Step_snd_lt kh kl i hkl (by omega)
    rcases hr with hr | hr
    · subst hr
      exact Nat.or_lt_two_pow (Nat.mod_lt _ (by positivity))
        (lt_of_le_of_lt (shr_le_self _ 16) h2)
    · exact ih _ _ (i + 1) h2 (by omega) r hr

theorem p128Step_fst_lt (kh kl i : Nat) (hkl : kl < 2 ^ 64) (hi : i ≤ 32) :
    (p128Step kh kl i).1 < 2 ^ 64 := by
  have hsb : ∀ (v s : Nat), s + 4 ≤ 64 → sboxV v <<< s < 2 ^ 64 := by
    intro v s hs
    have h1 : sboxV v < 2 ^ 4 := by
      rw [show (2:Nat) ^ 4 = 16 by norm_num]
      exact sbox_getD_lt v
    exact lt_of_lt_of_le (shiftLeft_lt s 4 h1)
      (Nat.pow_le_pow_right (by omega) (by omega))
  show ((((kh <<< 61) % 2 ^ 64 ||| kl >>> 3) ||| _ <<< 60) ||| _ <<< 56) ^^^ (i >>> 2)
    < 2 ^ 64
  apply Nat.xor_lt_two_pow
  · apply Nat.or_lt_two_pow
    · apply Nat.or_lt_two_pow
      · exact Nat.or_lt_two_pow (Nat.mod_lt _ (by positivity))
          (lt_of_le_of_lt (shr_le_self kl 3) hkl)
      · exact hsb _ 60 (by omega)
    · exact hsb _ 56 (by omega)
  · exact lt_of_le_of_lt (shr_le_self i 2) (by omega)

theorem p128Step_snd_lt (kh kl i : Nat) (hkh : kh < 2 ^ 64) :
    (p128Step kh kl i).2 < 2 ^ 64 := by
  show ((kl <<< 61) % 2 ^ 64 ||| kh >>> 3) ^^^ (i <<< 62) % 2 ^ 64 < 2 ^ 64
  apply Nat.xor_lt_two_pow
  · exact Nat.or_lt_two_pow (Nat.mod_lt _ (by positivity))
      (lt_of_le_of_lt (shr_le_self kh 3) hkh)
  · exact Nat.mod_lt _ (by positivity)

theorem p128Loop_lt : ∀ (n kh kl i : Nat), kh < 2 ^ 64 → kl < 2 ^ 64 → i + n ≤ 32 →
    ∀ r ∈ p128Loop kh kl i n, r < 2 ^ 64 := by
  intro n
  induction n with
  | zero =>
    intro kh kl i _ _ _ r hr
    simp [p128Loop] at hr
  | succ n ih =>
    intro kh kl i hkh hkl hi r hr
    simp only [p128Loop, List.mem_cons] at hr
    have hf := p128Step_fst_lt kh kl i hkl (by omega)
    have hs := p128Step_snd_lt kh kl i hkh
    rcases hr with hr | hr
    · subst hr
      exact hf
    · exact ih _ _ (i + 1) hf hs (by omega) r hr

theorem PRESENT_init_lt (key : List Nat) (hkey : ∀ x ∈ key, x < 2 ^ 16)
    (keyLen : Nat) : ∀ r ∈ PRESENT_init key keyLen, r < 2 ^ 64 := by
  have hk : ∀ i, key.getD i 0 < 2 ^ 16 := getD_lt_of_forall key hkey
  have hw : ∀ (i s : Nat), s + 16 ≤ 64 → key.getD i 0 <<< s < 2 ^ 64 := by
    intro i s hs
    exact lt_of_lt_of_le (shiftLeft_lt s 16 (hk i))
      (Nat.pow_le_pow_right (by omega) (by omega))
  have hpack : ∀ i0 i1 i2 i3 : Nat,
      key.getD i0 0 <<< 48 ||| key.getD i1 0 <<< 32 ||| key.getD i2 0 <<< 16 |||
        key.getD i3 0 < 2 ^ 64 := by
    intro i0 i1 i2 i3
    exact Nat.or_lt_two_pow
      (Nat.or_lt_two_pow (Nat.or_lt_two_pow (hw i0 48 (by omega)) (hw i1 32 (by omega)))
        (hw i2 16 (by omega)))
      (lt_trans (hk i3) (by norm_num))
  intro r hr
  by_cases h : keyLen = 80
  · rw [PRESENT_init, if_pos h] at hr
    simp only [List.mem_cons] at hr
    have hkl0 : key.getD 1 0 <<< 48 ||| key.getD 2 0 <<< 32 ||| key.getD 3 0 <<< 16 |||
        key.getD 4 0 < 2 ^ 64 := hpack 1 2 3 4
    rcases hr with hr | hr
    · subst hr
      exact Nat.or_lt_two_pow (Nat.mod_lt _ (by positivity))
        (lt_of_le_of_lt (shr_le_self _ 16) hkl0)
    · exact p80Loop_lt 31 _ _ 1 hkl0 (by omega) r hr
  · rw [PRESENT_init, if_neg h] at hr
    simp only [List.mem_cons] at hr
    rcases hr with hr | hr
    · subst hr
      exact hpack 0 1 2 3
    · exact p128Loop_lt 31 _ _ 1 (hpack 0 1 2 3) (hpack 4 5 6 7) (by omega) r hr

theorem pk16_field (a b c d : Nat) (ha : a < 2 ^ 16) (hb : b < 2 ^ 16)
    (hc : c < 2 ^ 16) (hd : d < 2 ^ 16) :
    (a <<< 48 ||| b <<< 32 ||| c <<< 16 ||| d) >>> 48 % 2 ^ 16 = a ∧
    (a <<< 48 ||| b <<< 32 ||| c <<< 16 ||| d) >>> 32 % 2 ^ 16 = b ∧
    (a <<< 48 ||| b <<< 32 ||| c <<< 16 ||| d) >>> 16 % 2 ^ 16 = c ∧
    (a <<< 48 ||| b <<< 32 ||| c <<< 16 ||| d) % 2 ^ 16 = d := by
  refine ⟨?_, ?_, ?_, ?_⟩
  · rw [field_lor, field_lor, field_lor, field_hit 48 16 ha,
      field_above 32 48 16 hb (by omega), field_above 16 48 16 hc (by omega),
      plain_above 48 16 hd (by omega)]
    simp
  · rw [field_lor, field_lor, field_lor, field_below 48 32 16 (by omega),
      field_hit 32 16 hb, field_above 16 32 16 hc (by omega),
      plain_above 32 16 hd (by omega)]
    simp
  · rw [field_lor, field_lor, field_lor, field_below 48 16 16 (by omega),
      field_below 32 16 16 (by omega), field_hit 16 16 hc,
      plain_above 16 16 hd (by omega)]
    simp
  · have h0 : ∀ z : Nat, z % 2 ^ 16 = z >>> 0 % 2 ^ 16 := by
      intro z
      rw [Nat.shiftRight_zero]
    rw [h0, field_lor, field_lor, field_lor, field_below 48 0 16 (by omega),
      field_below 32 0 16 (by omega), field_below 16 0 16 (by omega),
      Nat.shiftRight_zero, Nat.mod_eq_of_lt hd]
    simp

theorem splitBlock_load (b : Nat × Nat × Nat × Nat) (h1 : b.1 < 2 ^ 16)
    (h2 : b.2.1 < 2 ^ 16) (h3 : b.2.2.1 < 2 ^ 16) (h4 : b.2.2.2 < 2 ^ 16) :
    splitBlock (loadBlock b) = b := by
  obtain ⟨x, y, z, w⟩ := b
  obtain ⟨f1, f2, f3, f4⟩ := pk16_field x y z w h1 h2 h3 h4
  simp only [loadBlock, splitBlock]
  rw [f1, f2, f3, f4]

theorem loadBlock_lt (b : Nat × Nat × Nat × Nat) (h1 : b.1 < 2 ^ 16)
    (h2 : b.2.1 < 2 ^ 16) (h3 : b.2.2.1 < 2 ^ 16) (h4 : b.2.2.2 < 2 ^ 16) :
    loadBlock b < 2 ^ 64 := by
  have hw : ∀ (v s : Nat), v < 2 ^ 16 → s + 16 ≤ 64 → v <<< s < 2 ^ 64 := by
    intro v s hv hs
    exact lt_of_lt_of_le (shiftLeft_lt s 16 hv)
      (Nat.pow_le_pow_right (by omega) (by omega))
  exact Nat.or_lt_two_pow
    (Nat.or_lt_two_pow (Nat.or_lt_two_pow (hw _ 48 h1 (by omega)) (hw _ 32 h2 (by omega)))
      (hw _ 16 h3 (by omega)))
    (lt_trans h4 (by norm_num))

theorem loadBlock_split (x : Nat) (hx : x < 2 ^ 64) : loadBlock (splitBlock x) = x := by
  have hm : ∀ q : Nat, x >>> q % 2 ^ 16 < 2 ^ 16 := fun q => Nat.mod_lt _ (by positivity)
  obtain ⟨f1, f2, f3, f4⟩ :=
    pk16_field (x >>> 48 % 2 ^ 16) (x >>> 32 % 2 ^ 16) (x >>> 16 % 2 ^ 16) (x % 2 ^ 16)
      (hm 48) (hm 32) (hm 16) (Nat.mod_lt _ (by positivity))
  apply eq_of_fields_eq 16 4
  · show _ < 2 ^ (16 * 4)
    norm_num
    exact loadBlock_lt _ (hm 48) (hm 32) (hm 16) (Nat.mod_lt _ (by positivity))
  · norm_num
    exact hx
  · intro j hj
    simp only [loadBlock, splitBlock]
    interval_cases j
    · rw [show (16:Nat) * 0 = 0 by norm_num, Nat.shiftRight_zero, Nat.shiftRight_zero]
      exact f4
    · rw [show (16:Nat) * 1 = 16 by norm_num]
      exact f3
    · rw [show (16:Nat) * 2 = 32 by norm_num]
      exact f2
    · rw [show (16:Nat) * 3 = 48 by norm_num]
      exact f1

/-- Round-trip of the PRESENT block transform for any 32-entry schedule of
64-bit round keys. -/
theorem PRESENT_decrypt_encrypt (rk : List Nat) (hrk : ∀ r ∈ rk, r < 2 ^ 64)
    (b : Nat × Nat × Nat × Nat) (h1 : b.1 < 2 ^ 16) (h2 : b.2.1 < 2 ^ 16)
    (h3 : b.2.2.1 < 2 ^ 16) (h4 : b.2.2.2 < 2 ^ 16) :
    PRESENT_decrypt rk (PRESENT_encrypt rk b) = b := by
  have hks : ∀ r, rk.getD r 0 < 2 ^ 64 := getD_lt_of_forall rk hrk
  have hload : loadBlock b < 2 ^ 64 := loadBlock_lt b h1 h2 h3 h4
  have hE : encRounds (fun r => rk.getD r 0) 31 (loadBlock b) ^^^ rk.getD 31 0 < 2 ^ 64 :=
    Nat.xor_lt_two_pow (encRounds_lt _ _ hload 31) (hks 31)
  simp only [PRESENT_encrypt, PRESENT_decrypt]
  rw [loadBlock_split _ hE, decRounds_encRounds _ hks _ hload 31, Nat.xor_cancel_right]
  exact splitBlock_load b h1 h2 h3 h4

end PRESENT

/-! ## ARIA

Embedding of `src/algorithms/ARIA/ARIA.c`: 128-bit values as quadruples of
32-bit words, with the global registers of the C file (`KR`, `W0`-`W3`,
`ek1`-`ek13`, `dk1`-`dk13`) modelled as an explicit state record threaded
through `ARIA_encrypt` / `ARIA_decrypt`. -/

namespace ARIA

/-- A 128-bit value as four 32-bit words, most significant first. -/
abbrev Word4 := Nat × Nat × Nat × Nat

def CK1 : Word4 := (0x517cc1b7, 0x27220a94, 0xfe13abe8, 0xfa9a6ee0)

def CK2 : Word4 := (0x6db14acc, 0x9e21c820, 0xff28b1d5, 0xef5de2b0)

def CK3 : Word4 := (0xdb92371d, 0x2126e970, 0x03249775, 0x04e8c90e)

def SB1 : List Nat :=
  [0x63, 0x7c, 0x77, 0x7b, 0xf2, 0x6b, 0x6f, 0xc5, 0x30, 0x01, 0x67, 0x2b, 0xfe, 0xd7, 0xab, 0x76,
   0xca, 0x82, 0xc9, 0x7d, 0xfa, 0x59, 0x47, 0xf0, 0xad, 0xd4, 0xa2, 0xaf, 0x9c, 0xa4, 0x72, 0xc0,
   0xb7, 0xfd, 0x93, 0x26, 0x36, 0x3f, 0xf7, 0xcc, 0x34, 0xa5, 0xe5, 0xf1, 0x71, 0xd8, 0x31, 0x15,
   0x04, 0xc7, 0x23, 0xc3, 0x18, 0x96, 0x05, 0x9a, 0x07, 0x12, 0x80, 0xe2, 0xeb, 0x27, 0xb2, 0x75,
   0x09, 0x83, 0x2c, 0x1a, 0x1b, 0x6e, 0x5a, 0xa0, 0x52, 0x3b, 0xd6, 0xb3, 0x29, 0xe3, 0x2f, 0x84,
   0x53, 0xd1, 0x00, 0xed, 0x20, 0xfc, 0xb1, 0x5b, 0x6a, 0xcb, 0xbe, 0x39, 0x4a, 0x4c, 0x58, 0xcf,
   0xd0, 0xef, 0xaa, 0xfb, 0x43, 0x4d, 0x33, 0x85, 0x45, 0xf9, 0x02, 0x7f, 0x50, 0x3c, 0x9f, 0xa8,
   0x51, 0xa3, 0x40, 0x8f, 0x92, 0x9d, 0x38, 0xf5, 0xbc, 0xb6, 0xda, 0x21, 0x10, 0xff, 0xf3, 0xd2,
   0xcd, 0x0c, 0x13, 0xec, 0x5f, 0x97, 0x44, 0x17, 0xc4, 0xa7, 0x7e, 0x3d, 0x64, 0x5d, 0x19, 0x73,
   0x60, 0x81, 0x4f, 0xdc, 0x22, 0x2a, 0x90, 0x88, 0x46, 0xee, 0xb8, 0x14, 0xde, 0x5e, 0x0b, 0xdb,
   0xe0, 0x32, 0x3a, 0x0a, 0x49, 0x06, 0x24, 0x5c, 0xc2, 0xd3, 0xac, 0x62, 0x91, 0x95, 0xe4, 0x79,
   0xe7, 0xc8, 0x37, 0x6d, 0x8d, 0xd5, 0x4e, 0xa9, 0x6c, 0x56, 0xf4, 0xea, 0x65, 0x7a, 0xae, 0x08,
   0xba, 0x78, 0x25, 0x2e, 0x1c, 0xa6, 0xb4, 0xc6, 0xe8, 0xdd, 0x74, 0x1f, 0x4b, 0xbd, 0x8b, 0x8a,
   0x70, 0x3e, 0xb5, 0x66, 0x48, 0x03, 0xf6, 0x0e, 0x61, 0x35, 0x57, 0xb9, 0x86, 0xc1, 0x1d, 0x9e,
   0xe1, 0xf8, 0x98, 0x11, 0x69, 0xd9, 0x8e, 0x94, 0x9b, 0x1e, 0x87, 0xe9, 0xce, 0x55, 0x28, 0xdf,
   0x8c, 0xa1, 0x89, 0x0d, 0xbf, 0xe6, 0x42, 0x68, 0x41, 0x99, 0x2d, 0x0f, 0xb0, 0x54, 0xbb, 0x16]

def SB2 : List Nat :=
  [0xe2, 0x4e, 0x54, 0xfc, 0x94, 0xc2, 0x4a, 0xcc, 0x62, 0x0d, 0x6a, 0x46, 0x3c, 0x4d, 0x8b, 0xd1,
   0x5e, 0xfa, 0x64, 0xcb, 0xb4, 0x97, 0xbe, 0x2b, 0xbc, 0x77, 0x2e, 0x03, 0xd3, 0x19, 0x59, 0xc1,
   0x1d, 0x06, 0x41, 0x6b, 0x55, 0xf0, 0x99, 0x69, 0xea, 0x9c, 0x18, 0xae, 0x63, 0xdf, 0xe7, 0xbb,
   0x00, 0x73, 0x66, 0xfb, 0x96, 0x4c, 0x85, 0xe4, 0x3a, 0x09, 0x45, 0xaa, 0x0f, 0xee, 0x10, 0xeb,
   0x2d, 0x7f, 0xf4, 0x29, 0xac, 0xcf, 0xad, 0x91, 0x8d, 0x78, 0xc8, 0x95, 0xf9, 0x2f, 0xce, 0xcd,
   0x08, 0x7a, 0x88, 0x38, 0x5c, 0x83, 0x2a, 0x28, 0x47, 0xdb, 0xb8, 0xc7, 0x93, 0xa4, 0x12, 0x53,
   0xff, 0x87, 0x0e, 0x31, 0x36, 0x21, 0x58, 0x48, 0x01, 0x8e, 0x37, 0x74, 0x32, 0xca, 0xe9, 0xb1,
   0xb7, 0xab, 0x0c, 0xd7, 0xc4, 0x56, 0x42, 0x26, 0x07, 0x98, 0x60, 0xd9, 0xb6, 0xb9, 0x11, 0x40,
   0xec, 0x20, 0x8c, 0xbd, 0xa0, 0xc9, 0x84, 0x04, 0x49, 0x23, 0xf1, 0x4f, 0x50, 0x1f, 0x13, 0xdc,
   0xd8, 0xc0, 0x9e, 0x57, 0xe3, 0xc3, 0x7b, 0x65, 0x3b, 0x02, 0x8f, 0x3e, 0xe8, 0x25, 0x92, 0xe5,
   0x15, 0xdd, 0xfd, 0x17, 0xa9, 0xbf, 0xd4, 0x9a, 0x7e, 0xc5, 0x39, 0x67, 0xfe, 0x76, 0x9d, 0x43,
   0xa7, 0xe1, 0xd0, 0xf5, 0x68, 0xf2, 0x1b, 0x34, 0x70, 0x05, 0xa3, 0x8a, 0xd5, 0x79, 0x86, 0xa8,
   0x30, 0xc6, 0x51, 0x4b, 0x1e, 0xa6, 0x27, 0xf6, 0x35, 0xd2, 0x6e, 0x24, 0x16, 0x82, 0x5f, 0xda,
   0xe6, 0x75, 0xa2, 0xef, 0x2c, 0xb2, 0x1c, 0x9f, 0x5d, 0x6f, 0x80, 0x0a, 0x72, 0x44, 0x9b, 0x6c,
   0x90, 0x0b, 0x5b, 0x33, 0x7d, 0x5a, 0x52, 0xf3, 0x61, 0xa1, 0xf7, 0xb0, 0xd6, 0x3f, 0x7c, 0x6d,
   0xed, 0x14, 0xe0, 0xa5, 0x3d, 0x22, 0xb3, 0xf8, 0x89, 0xde, 0x71, 0x1a, 0xaf, 0xba, 0xb5, 0x81]

def SB3 : List Nat :=
  [0x52, 0x09, 0x6a, 0xd5, 0x30, 0x36, 0xa5, 0x38, 0xbf, 0x40, 0xa3, 0x9e, 0x81, 0xf3, 0xd7, 0xfb,
   0x7c, 0xe3, 0x39, 0x82, 0x9b, 0x2f, 0xff, 0x87, 0x34, 0x8e, 0x43, 0x44, 0xc4, 0xde, 0xe9, 0xcb,
   0x54, 0x7b, 0x94, 0x32, 0xa6, 0xc2, 0x23, 0x3d, 0xee, 0x4c, 0x95, 0x0b, 0x42, 0xfa, 0xc3, 0x4e,
   0x08, 0x2e, 0xa1, 0x66, 0x28, 0xd9, 0x24, 0xb2, 0x76, 0x5b, 0xa2, 0x49, 0x6d, 0x8b, 0xd1, 0x25,
   0x72, 0xf8, 0xf6, 0x64, 0x86, 0x68, 0x98, 0x16, 0xd4, 0xa4, 0x5c, 0xcc, 0x5d, 0x65, 0xb6, 0x92,
   0x6c, 0x70, 0x48, 0x50, 0xfd, 0xed, 0xb9, 0xda, 0x5e, 0x15, 0x46, 0x57, 0xa7, 0x8d, 0x9d, 0x84,
   0x90, 0xd8, 0xab, 0x00, 0x8c, 0xbc, 0xd3, 0x0a, 0xf7, 0xe4, 0x58, 0x05, 0xb8, 0xb3, 0x45, 0x06,
   0xd0, 0x2c, 0x1e, 0x8f, 0xca, 0x3f, 0x0f, 0x02, 0xc1, 0xaf, 0xbd, 0x03, 0x01, 0x13, 0x8a, 0x6b,
   0x3a, 0x91, 0x11, 0x41, 0x4f, 0x67, 0xdc, 0xea, 0x97, 0xf2, 0xcf, 0xce, 0xf0, 0xb4, 0xe6, 0x73,
   0x96, 0xac, 0x74, 0x22, 0xe7, 0xad, 0x35, 0x85, 0xe2, 0xf9, 0x37, 0xe8, 0x1c, 0x75, 0xdf, 0x6e,
   0x47, 0xf1, 0x1a, 0x71, 0x1d, 0x29, 0xc5, 0x89, 0x6f, 0xb7, 0x62, 0x0e, 0xaa, 0x18, 0xbe, 0x1b,
   0xfc, 0x56, 0x3e, 0x4b, 0xc6, 0xd2, 0x79, 0x20, 0x9a, 0xdb, 0xc0, 0xfe, 0x78, 0xcd, 0x5a, 0xf4,
   0x1f, 0xdd, 0xa8, 0x33, 0x88, 0x07, 0xc7, 0x31, 0xb1, 0x12, 0x10, 0x59, 0x27, 0x80, 0xec, 0x5f,
   0x60, 0x51, 0x7f, 0xa9, 0x19, 0xb5, 0x4a, 0x0d, 0x2d, 0xe5, 0x7a, 0x9f, 0x93, 0xc9, 0x9c, 0xef,
   0xa0, 0xe0, 0x3b, 0x4d, 0xae, 0x2a, 0xf5, 0xb0, 0xc8, 0xeb, 0xbb, 0x3c, 0x83, 0x53, 0x99, 0x61,
   0x17, 0x2b, 0x04, 0x7e, 0xba, 0x77, 0xd6, 0x26, 0xe1, 0x69, 0x14, 0x63, 0x55, 0x21, 0x0c, 0x7d]

def SB4 : List Nat :=
  [0x30, 0x68, 0x99, 0x1b, 0x87, 0xb9, 0x21, 0x78, 0x50, 0x39, 0xdb, 0xe1, 0x72, 0x09, 0x62, 0x3c,
   0x3e, 0x7e, 0x5e, 0x8e, 0xf1, 0xa0, 0xcc, 0xa3, 0x2a, 0x1d, 0xfb, 0xb6, 0xd6, 0x20, 0xc4, 0x8d,
   0x81, 0x65, 0xf5, 0x89, 0xcb, 0x9d, 0x77, 0xc6, 0x57, 0x43, 0x56, 0x17, 0xd4, 0x40, 0x1a, 0x4d,
   0xc0, 0x63, 0x6c, 0xe3, 0xb7, 0xc8, 0x64, 0x6a, 0x53, 0xaa, 0x38, 0x98, 0x0c, 0xf4, 0x9b, 0xed,
   0x7f, 0x22, 0x76, 0xaf, 0xdd, 0x3a, 0x0b, 0x58, 0x67, 0x88, 0x06, 0xc3, 0x35, 0x0d, 0x01, 0x8b,
   0x8c, 0xc2, 0xe6, 0x5f, 0x02, 0x24, 0x75, 0x93, 0x66, 0x1e, 0xe5, 0xe2, 0x54, 0xd8, 0x10, 0xce,
   0x7a, 0xe8, 0x08, 0x2c, 0x12, 0x97, 0x32, 0xab, 0xb4, 0x27, 0x0a, 0x23, 0xdf, 0xef, 0xca, 0xd9,
   0xb8, 0xfa, 0xdc, 0x31, 0x6b, 0xd1, 0xad, 0x19, 0x49, 0xbd, 0x51, 0x96, 0xee, 0xe4, 0xa8, 0x41,
   0xda, 0xff, 0xcd, 0x55, 0x86, 0x36, 0xbe, 0x61, 0x52, 0xf8, 0xbb, 0x0e, 0x82, 0x48, 0x69, 0x9a,
   0xe0, 0x47, 0x9e, 0x5c, 0x04, 0x4b, 0x34, 0x15, 0x79, 0x26, 0xa7, 0xde, 0x29, 0xae, 0x92, 0xd7,
   0x84, 0xe9, 0xd2, 0xba, 0x5d, 0xf3, 0xc5, 0xb0, 0xbf, 0xa4, 0x3b, 0x71, 0x44, 0x46, 0x2b, 0xfc,
   0xeb, 0x6f, 0xd5, 0xf6, 0x14, 0xfe, 0x7c, 0x70, 0x5a, 0x7d, 0xfd, 0x2f, 0x18, 0x83, 0x16, 0xa5,
   0x91, 0x1f, 0x05, 0x95, 0x74, 0xa9, 0xc1, 0x5b, 0x4a, 0x85, 0x6d, 0x13, 0x07, 0x4f, 0x4e, 0x45,
   0xb2, 0x0f, 0xc9, 0x1c, 0xa6, 0xbc, 0xec, 0x73, 0x90, 0x7b, 0xcf, 0x59, 0x8f, 0xa1, 0xf9, 0x2d,
   0xf2, 0xb1, 0x00, 0x94, 0x37, 0x9f, 0xd0, 0x2e, 0x9c, 0x6e, 0x28, 0x3f, 0x80, 0xf0, 0x3d, 0xd3,
   0x25, 0x8a, 0xb5, 0xe7, 0x42, 0xb3, 0xc7, 0xea, 0xf7, 0x4c, 0x11, 0x33, 0x03, 0xa2, 0xac, 0x60]

def XOR_128 (y x : Word4) : Word4 :=
  (y.1 ^^^ x.1, y.2.1 ^^^ x.2.1, y.2.2.1 ^^^ x.2.2.1, y.2.2.2 ^^^ x.2.2.2)

def MOV_128 (x : Word4) : Word4 := x

def ROL_128 (x : Word4) (n : Nat) : Word4 :=
  (((x.1 <<< n) % 2 ^ 32) ||| x.2.1 >>> (32 - n),
   ((x.2.1 <<< n) % 2 ^ 32) ||| x.2.2.1 >>> (32 - n),
   ((x.2.2.1 <<< n) % 2 ^ 32) ||| x.2.2.2 >>> (32 - n),
   ((x.2.2.2 <<< n) % 2 ^ 32) ||| x.1 >>> (32 - n))

def ROR_128 (x : Word4) (n : Nat) : Word4 :=
  (x.1 >>> n ||| ((x.2.2.2 <<< (32 - n)) % 2 ^ 32),
   x.2.1 >>> n ||| ((x.1 <<< (32 - n)) % 2 ^ 32),
   x.2.2.1 >>> n ||| ((x.2.1 <<< (32 - n)) % 2 ^ 32),
   x.2.2.2 >>> n ||| ((x.2.2.1 <<< (32 - n)) % 2 ^ 32))

/-- The byte-packing idiom `b0 << 24 | b1 << 16 | b2 << 8 | b3` used to
rebuild every 32-bit word. -/
def pk8 (a b c d : Nat) : Nat := a <<< 24 ||| b <<< 16 ||| c <<< 8 ||| d

/-- One word of a substitution layer: each of the four bytes through its
own table (the `(unsigned __int8)` casts of the C are the `% 256`). -/
def SLw (t0 t1 t2 t3 : List Nat) (w : Nat) : Nat :=
  pk8 (t0.getD ((w >>> 24) % 256) 0) (t1.getD ((w >>> 16) % 256) 0)
    (t2.getD ((w >>> 8) % 256) 0) (t3.getD (w % 256) 0)

def SL1 (x : Word4) : Word4 :=
  (SLw SB1 SB2 SB3 SB4 x.1, SLw SB1 SB2 SB3 SB4 x.2.1,
   SLw SB1 SB2 SB3 SB4 x.2.2.1, SLw SB1 SB2 SB3 SB4 x.2.2.2)

def SL2 (x : Word4) : Word4 :=
  (SLw SB3 SB4 SB1 SB2 x.1, SLw SB3 SB4 SB1 SB2 x.2.1,
   SLw SB3 SB4 SB1 SB2 x.2.2.1, SLw SB3 SB4 SB1 SB2 x.2.2.2)

/-- The diffusion layer: sixteen bytes in, each output byte the XOR of
seven input bytes, repacked into four words. -/
def A (x : Word4) : Word4 :=
  let x0 := (x.1 >>> 24) % 256
  let x1 := (x.1 >>> 16) % 256
  let x2 := (x.1 >>> 8) % 256
  let x3 := x.1 % 256
  let x4 := (x.2.1 >>> 24) % 256
  let x5 := (x.2.1 >>> 16) % 256
  let x6 := (x.2.1 >>> 8) % 256
  let x7 := x.2.1 % 256
  let x8 := (x.2.2.1 >>> 24) % 256
  let x9 := (x.2.2.1 >>> 16) % 256
  let x10 := (x.2.2.1 >>> 8) % 256
  let x11 := x.2.2.1 % 256
  let x12 := (x.2.2.2 >>> 24) % 256
  let x13 := (x.2.2.2 >>> 16) % 256
  let x14 := (x.2.2.2 >>> 8) % 256
  let x15 := x.2.2.2 % 256
  let y0 := x3 ^^^ x4 ^^^ x6 ^^^ x8 ^^^ x9 ^^^ x13 ^^^ x14
  let y1 := x2 ^^^ x5 ^^^ x7 ^^^ x8 ^^^ x9 ^^^ x12 ^^^ x15
  let y2 := x1 ^^^ x4 ^^^ x6 ^^^ x10 ^^^ x11 ^^^ x12 ^^^ x15
  let y3 := x0 ^^^ x5 ^^^ x7 ^^^ x10 ^^^ x11 ^^^ x13 ^^^ x14
  let y4 := x0 ^^^ x2 ^^^ x5 ^^^ x8 ^^^ x11 ^^^ x14 ^^^ x15
  let y5 := x1 ^^^ x3 ^^^ x4 ^^^ x9 ^^^ x10 ^^^ x14 ^^^ x15
  let y6 := x0 ^^^ x2 ^^^ x7 ^^^ x9 ^^^ x10 ^^^ x12 ^^^ x13
  let y7 := x1 ^^^ x3 ^^^ x6 ^^^ x8 ^^^ x11 ^^^ x12 ^^^ x13
  let y8 := x0 ^^^ x1 ^^^ x4 ^^^ x7 ^^^ x10 ^^^ x13 ^^^ x15
  let y9 := x0 ^^^ x1 ^^^ x5 ^^^ x6 ^^^ x11 ^^^ x12 ^^^ x14
  let y10 := x2 ^^^ x3 ^^^ x5 ^^^ x6 ^^^ x8 ^^^ x13 ^^^ x15
  let y11 := x2 ^^^ x3 ^^^ x4 ^^^ x7 ^^^ x9 ^^^ x12 ^^^ x14
  let y12 := x1 ^^^ x2 ^^^ x6 ^^^ x7 ^^^ x9 ^^^ x11 ^^^ x12
  let y13 := x0 ^^^ x3 ^^^ x6 ^^^ x7 ^^^ x8 ^^^ x10 ^^^ x13
  let y14 := x0 ^^^ x3 ^^^ x4 ^^^ x5 ^^^ x9 ^^^ x11 ^^^ x14
  let y15 := x1 ^^^ x2 ^^^ x4 ^^^ x5 ^^^ x8 ^^^ x10 ^^^ x15
  (pk8 y0 y1 y2 y3, pk8 y4 y5 y6 y7, pk8 y8 y9 y10 y11, pk8 y12 y13 y14 y15)

def FO (D RK : Word4) : Word4 := A (SL1 (XOR_128 (MOV_128 D) RK))

def FE (D RK : Word4) : Word4 := A (SL2 (XOR_128 (MOV_128 D) RK))

structure AriaKeys where
  k1 : Word4
  k2 : Word4
  k3 : Word4
  k4 : Word4
  k5 : Word4
  k6 : Word4
  k7 : Word4
  k8 : Word4
  k9 : Word4
  k10 : Word4
  k11 : Word4
  k12 : Word4
  k13 : Word4

def generateEncryptionKeys (W0 W1 W2 W3 : Word4) : AriaKeys where
  k1 := XOR_128 (ROR_128 W1 19) W0
  k2 := XOR_128 (ROR_128 W2 19) W1
  k3 := XOR_128 (ROR_128 W3 19) W2
  k4 := XOR_128 (ROR_128 W0 19) W3
  k5 := XOR_128 (ROR_128 W1 31) W0
  k6 := XOR_128 (ROR_128 W2 31) W1
  k7 := XOR_128 (ROR_128 W3 31) W2
  k8 := XOR_128 (ROR_128 W0 31) W3
  k9 := XOR_128 (MOV_128 (ROL_128 (ROL_128 W1 31) 30)) W0
  k10 := XOR_128 (MOV_128 (ROL_128 (ROL_128 W2 31) 30)) W1
  k11 := XOR_128 (MOV_128 (ROL_128 (ROL_128 W3 31) 30)) W2
  k12 := XOR_128 (MOV_128 (ROL_128 (ROL_128 W0 31) 30)) W3
  k13 := XOR_128 (ROL_128 W1 31) W0

def generateDecryptionKeys (e : AriaKeys) : AriaKeys where
  k1 := MOV_128 e.k13
  k2 := A e.k12
  k3 := A e.k11
  k4 := A e.k10
  k5 := A e.k9
  k6 := A e.k8
  k7 := A e.k7
  k8 := A e.k6
  k9 := A e.k5
  k10 := A e.k4
  k11 := A e.k3
  k12 := A e.k2
  k13 := MOV_128 e.k1

/-- The shared round sequence of `ARIA_encrypt` and `ARIA_decrypt`:
eleven alternating `FO`/`FE` rounds, then `SL2` between two key XORs. -/
def rounds (block : Word4) (k : AriaKeys) : Word4 :=
  let P1 := FO block k.k1
  let P2 := FE P1 k.k2
  let P3 := FO P2 k.k3
  let P4 := FE P3 k.k4
  let P5 := FO P4 k.k5
  let P6 := FE P5 k.k6
  let P7 := FO P6 k.k7
  let P8 := FE P7 k.k8
  let P9 := FO P8 k.k9
  let P10 := FE P9 k.k10
  let P11 := FO P10 k.k11
  XOR_128 (SL2 (XOR_128 P11 k.k12)) k.k13

/-- The file-scope mutable registers of ARIA.c.  `KR` is declared and
zero-initialised but never written by any function. -/
structure AriaState where
  KR : Word4
  W0 : Word4
  W1 : Word4
  W2 : Word4
  W3 : Word4
  ek : AriaKeys
  dk : AriaKeys

def zero4 : Word4 := (0, 0, 0, 0)

def zeroKeys : AriaKeys :=
  ⟨zero4, zero4, zero4, zero4, zero4, zero4, zero4, zero4, zero4, zero4,
   zero4, zero4, zero4⟩

/-- C zero-initialises file-scope variables. -/
def initState : AriaState :=
  ⟨zero4, zero4, zero4, zero4, zero4, zeroKeys, zeroKeys⟩

/-- The function `ARIA_encrypt`: recompute `W0`-`W3` from the key argument, regenerate
the encryption keys, run the rounds.  Returns the updated globals and the
output block. -/
def ARIA_encrypt (s : AriaState) (block key : Word4) : AriaState × Word4 :=
  let W0 := MOV_128 key
  let W1 := XOR_128 (FO W0 CK1) s.KR
  let W2 := XOR_128 (FE W1 CK2) W0
  let W3 := XOR_128 (FO W2 CK3) W1
  let ek := generateEncryptionKeys W0 W1 W2 W3
  ({ s with W0 := W0, W1 := W1, W2 := W2, W3 := W3, ek := ek }, rounds block ek)

/-- The function `ARIA_decrypt`: the register initialisation writes `FO(W2, CK3)` back
into `W2` (not `W3`), XORs the stale global `W3` with `W1`, and derives the
decryption keys from the global `ek` registers of the last encryption. -/
def ARIA_decrypt (s : AriaState) (block key : Word4) : AriaState × Word4 :=
  let W0 := MOV_128 key
  let W1 := XOR_128 (FO W0 CK1) s.KR
  let W2a := XOR_128 (FE W1 CK2) W0
  let W2 := FO W2a CK3
  let W3 := XOR_128 s.W3 W1
  let dk := generateDecryptionKeys s.ek
  ({ s with W0 := W0, W1 := W1, W2 := W2, W3 := W3, dk := dk }, rounds block dk)

set_option maxRecDepth 4000 in
theorem SB1_lt : ∀ b, b < 256 → SB1.getD b 0 < 256 := by decide

set_option maxRecDepth 4000 in
theorem SB2_lt : ∀ b, b < 256 → SB2.getD b 0 < 256 := by decide

set_option maxRecDepth 4000 in
theorem SB3_lt : ∀ b, b < 256 → SB3.getD b 0 < 256 := by decide

set_option maxRecDepth 4000 in
theorem SB4_lt : ∀ b, b < 256 → SB4.getD b 0 < 256 := by decide

theorem getD256_lt (tab : List Nat) (hlen : tab.length = 256)
    (hall : ∀ b, b < 256 → tab.getD b 0 < 256) : ∀ b, tab.getD b 0 < 256 := by
  intro b
  by_cases h : b < 256
  · exact hall b h
  · rw [List.getD_eq_default _ _ (by omega)]
    norm_num

set_option maxRecDepth 4000 in
theorem SB1_lt' : ∀ b, SB1.getD b 0 < 256 := getD256_lt SB1 rfl SB1_lt

set_option maxRecDepth 4000 in
theorem SB2_lt' : ∀ b, SB2.getD b 0 < 256 := getD256_lt SB2 rfl SB2_lt

set_option maxRecDepth 4000 in
theorem SB3_lt' : ∀ b, SB3.getD b 0 < 256 := getD256_lt SB3 rfl SB3_lt

set_option maxRecDepth 4000 in
theorem SB4_lt' : ∀ b, SB4.getD b 0 < 256 := getD256_lt SB4 rfl SB4_lt

set_option maxRecDepth 4000 in
/-- SB3 is the inverse of SB1. -/
theorem SB3_SB1 : ∀ b, b < 256 → SB3.getD (SB1.getD b 0) 0 = b := by decide

set_option maxRecDepth 4000 in
/-- SB4 is the inverse of SB2. -/
theorem SB4_SB2 : ∀ b, b < 256 → SB4.getD (SB2.getD b 0) 0 = b := by decide

set_option maxRecDepth 4000 in
/-- SB1 is the inverse of SB3. -/
theorem SB1_SB3 : ∀ b, b < 256 → SB1.getD (SB3.getD b 0) 0 = b := by decide

set_option maxRecDepth 4000 in
/-- SB2 is the inverse of SB4. -/
theorem SB2_SB4 : ∀ b, b < 256 → SB2.getD (SB4.getD b 0) 0 = b := by decide

theorem pk8_b3 (a b c d : Nat) (ha : a < 256) (hb : b < 256) (hc : c < 256)
    (hd : d < 256) : pk8 a b c d >>> 24 % 256 = a := by
  rw [pk8, field_lor256, field_lor256, field_lor256, field_hit256 24 ha,
    field_above256 16 24 hb (by omega), field_above256 8 24 hc (by omega),
    plain_above256 24 hd (by omega)]
  simp

theorem pk8_b2 (a b c d : Nat) (ha : a < 256) (hb : b < 256) (hc : c < 256)
    (hd : d < 256) : pk8 a b c d >>> 16 % 256 = b := by
  rw [pk8, field_lor256, field_lor256, field_lor256, field_below256 24 16 (by omega),
    field_hit256 16 hb, field_above256 8 16 hc (by omega),
    plain_above256 16 hd (by omega)]
  simp

theorem pk8_b1 (a b c d : Nat) (ha : a < 256) (hb : b < 256) (hc : c < 256)
    (hd : d < 256) : pk8 a b c d >>> 8 % 256 = c := by
  rw [pk8, field_lor256, field_lor256, field_lor256, field_below256 24 8 (by omega),
    field_below256 16 8 (by omega), field_hit256 8 hc, plain_above256 8 hd (by omega)]
  simp

theorem pk8_b0 (a b c d : Nat) (ha : a < 256) (hb : b < 256) (hc : c < 256)
    (hd : d < 256) : pk8 a b c d % 256 = d := by
  have h0 : ∀ z : Nat, z % 256 = z >>> 0 % 256 := by
    intro z
    rw [Nat.shiftRight_zero]
  rw [pk8, h0, field_lor256, field_lor256, field_lor256, field_below256 24 0 (by omega),
    field_below256 16 0 (by omega), field_below256 8 0 (by omega),
    Nat.shiftRight_zero, Nat.mod_eq_of_lt hd]
  simp

theorem pk8_lt {a b c d : Nat} (ha : a < 256) (hb : b < 256) (hc : c < 256)
    (hd : d < 256) : pk8 a b c d < 2 ^ 32 := by
  have h8 : (256:Nat) = 2 ^ 8 := by norm_num
  rw [h8] at ha hb hc hd
  have hw : ∀ (v s : Nat), v < 2 ^ 8 → s + 8 ≤ 32 → v <<< s < 2 ^ 32 := by
    intro v s hv hs
    exact lt_of_lt_of_le (shiftLeft_lt s 8 hv)
      (Nat.pow_le_pow_right (by omega) (by omega))
  exact Nat.or_lt_two_pow
    (Nat.or_lt_two_pow (Nat.or_lt_two_pow (hw a 24 ha (by omega)) (hw b 16 hb (by omega)))
      (hw c 8 hc (by omega)))
    (lt_of_lt_of_le hd (by norm_num))

theorem pk8_eta (x : Nat) (hx : x < 2 ^ 32) :
    pk8 (x >>> 24 % 256) (x >>> 16 % 256) (x >>> 8 % 256) (x % 256) = x := by
  have hm : ∀ q : Nat, x >>> q % 256 < 256 := fun q => Nat.mod_lt _ (by norm_num)
  have hm0 : x % 256 < 256 := Nat.mod_lt _ (by norm_num)
  apply eq_of_fields_eq 8 4
  · show _ < 2 ^ (8 * 4)
    norm_num
    exact pk8_lt (hm 24) (hm 16) (hm 8) hm0
  · norm_num
    exact hx
  · intro j hj
    rw [show (2:Nat) ^ 8 = 256 by norm_num]
    interval_cases j
    · rw [show (8:Nat) * 0 = 0 by norm_num, Nat.shiftRight_zero, Nat.shiftRight_zero]
      exact pk8_b0 _ _ _ _ (hm 24) (hm 16) (hm 8) hm0
    · rw [show (8:Nat) * 1 = 8 by norm_num]
      exact pk8_b1 _ _ _ _ (hm 24) (hm 16) (hm 8) hm0
    · rw [show (8:Nat) * 2 = 16 by norm_num]
      exact pk8_b2 _ _ _ _ (hm 24) (hm 16) (hm 8) hm0
    · rw [show (8:Nat) * 3 = 24 by norm_num]
      exact pk8_b3 _ _ _ _ (hm 24) (hm 16) (hm 8) hm0

/-- A 128-bit quadruple of genuine 32-bit words. -/
def valid4 (x : Word4) : Prop :=
  x.1 < 2 ^ 32 ∧ x.2.1 < 2 ^ 32 ∧ x.2.2.1 < 2 ^ 32 ∧ x.2.2.2 < 2 ^ 32

theorem xor_lt_256 {a b : Nat} (ha : a < 256) (hb : b < 256) : a ^^^ b < 256 := by
  rw [show (256:Nat) = 2 ^ 8 by norm_num] at ha hb ⊢
  exact Nat.xor_lt_two_pow ha hb

theorem xor7_lt {a b c d e f g : Nat} (ha : a < 256) (hb : b < 256) (hc : c < 256)
    (hd : d < 256) (he : e < 256) (hf : f < 256) (hg : g < 256) :
    a ^^^ b ^^^ c ^^^ d ^^^ e ^^^ f ^^^ g < 256 :=
  xor_lt_256 (xor_lt_256 (xor_lt_256 (xor_lt_256 (xor_lt_256 (xor_lt_256 ha hb) hc) hd) he) hf) hg

theorem byte_xor (x y q : Nat) :
    (x ^^^ y) >>> q % 256 = (x >>> q % 256) ^^^ (y >>> q % 256) := by
  rw [show (256:Nat) = 2 ^ 8 by norm_num, xor_shr, xor_mod_two_pow]

theorem byte_xor0 (x y : Nat) : (x ^^^ y) % 256 = (x % 256) ^^^ (y % 256) := by
  rw [show (256:Nat) = 2 ^ 8 by norm_num, xor_mod_two_pow]

/-- Rebuilding each word of a valid quadruple from its bytes. -/
theorem eta4 (w0 w1 w2 w3 : Nat) (h0 : w0 < 2 ^ 32) (h1 : w1 < 2 ^ 32)
    (h2 : w2 < 2 ^ 32) (h3 : w3 < 2 ^ 32) :
    ((pk8 (w0 >>> 24 % 256) (w0 >>> 16 % 256) (w0 >>> 8 % 256) (w0 % 256),
      pk8 (w1 >>> 24 % 256) (w1 >>> 16 % 256) (w1 >>> 8 % 256) (w1 % 256),
      pk8 (w2 >>> 24 % 256) (w2 >>> 16 % 256) (w2 >>> 8 % 256) (w2 % 256),
      pk8 (w3 >>> 24 % 256) (w3 >>> 16 % 256) (w3 >>> 8 % 256) (w3 % 256)) : Word4) =
      (w0, w1, w2, w3) := by
  rw [pk8_eta w0 h0, pk8_eta w1 h1, pk8_eta w2 h2, pk8_eta w3 h3]

theorem valid4_xor4 {x y : Word4} (hx : valid4 x) (hy : valid4 y) :
    valid4 (XOR_128 x y) :=
  ⟨Nat.xor_lt_two_pow hx.1 hy.1, Nat.xor_lt_two_pow hx.2.1 hy.2.1,
   Nat.xor_lt_two_pow hx.2.2.1 hy.2.2.1, Nat.xor_lt_two_pow hx.2.2.2 hy.2.2.2⟩

theorem valid4_A (x : Word4) : valid4 (A x) := by
  obtain ⟨w0, w1, w2, w3⟩ := x
  refine ⟨?_, ?_, ?_, ?_⟩ <;>
    (apply pk8_lt <;> apply xor7_lt <;> exact Nat.mod_lt _ (by norm_num))

theorem valid4_SL1 (x : Word4) : valid4 (SL1 x) :=
  ⟨pk8_lt (SB1_lt' _) (SB2_lt' _) (SB3_lt' _) (SB4_lt' _),
   pk8_lt (SB1_lt' _) (SB2_lt' _) (SB3_lt' _) (SB4_lt' _),
   pk8_lt (SB1_lt' _) (SB2_lt' _) (SB3_lt' _) (SB4_lt' _),
   pk8_lt (SB1_lt' _) (SB2_lt' _) (SB3_lt' _) (SB4_lt' _)⟩

theorem valid4_SL2 (x : Word4) : valid4 (SL2 x) :=
  ⟨pk8_lt (SB3_lt' _) (SB4_lt' _) (SB1_lt' _) (SB2_lt' _),
   pk8_lt (SB3_lt' _) (SB4_lt' _) (SB1_lt' _) (SB2_lt' _),
   pk8_lt (SB3_lt' _) (SB4_lt' _) (SB1_lt' _) (SB2_lt' _),
   pk8_lt (SB3_lt' _) (SB4_lt' _) (SB1_lt' _) (SB2_lt' _)⟩

theorem valid4_FO (D RK : Word4) : valid4 (FO D RK) := valid4_A _

theorem valid4_FE (D RK : Word4) : valid4 (FE D RK) := valid4_A _

theorem valid4_ROL {x : Word4} (n : Nat) (hx : valid4 x) : valid4 (ROL_128 x n) := by
  obtain ⟨w0, w1, w2, w3⟩ := x
  obtain ⟨h0, h1, h2, h3⟩ := hx
  refine ⟨?_, ?_, ?_, ?_⟩ <;>
    exact Nat.or_lt_two_pow (Nat.mod_lt _ (by positivity))
      (lt_of_le_of_lt (shr_le_self _ _) (by assumption))

theorem valid4_ROR {x : Word4} (n : Nat) (hx : valid4 x) : valid4 (ROR_128 x n) := by
  obtain ⟨w0, w1, w2, w3⟩ := x
  obtain ⟨h0, h1, h2, h3⟩ := hx
  refine ⟨?_, ?_, ?_, ?_⟩ <;>
    exact Nat.or_lt_two_pow (lt_of_le_of_lt (shr_le_self _ _) (by assumption))
      (Nat.mod_lt _ (by positivity))

theorem A_pk8 (a0 a1 a2 a3 a4 a5 a6 a7 a8 a9 a10 a11 a12 a13 a14 a15 : Nat)
    (h0 : a0 < 256) (h1 : a1 < 256) (h2 : a2 < 256) (h3 : a3 < 256)
    (h4 : a4 < 256) (h5 : a5 < 256) (h6 : a6 < 256) (h7 : a7 < 256)
    (h8 : a8 < 256) (h9 : a9 < 256) (h10 : a10 < 256) (h11 : a11 < 256)
    (h12 : a12 < 256) (h13 : a13 < 256) (h14 : a14 < 256) (h15 : a15 < 256) :
    A (pk8 a0 a1 a2 a3, pk8 a4 a5 a6 a7, pk8 a8 a9 a10 a11, pk8 a12 a13 a14 a15) =
      (pk8 (a3 ^^^ a4 ^^^ a6 ^^^ a8 ^^^ a9 ^^^ a13 ^^^ a14)
        (a2 ^^^ a5 ^^^ a7 ^^^ a8 ^^^ a9 ^^^ a12 ^^^ a15)
        (a1 ^^^ a4 ^^^ a6 ^^^ a10 ^^^ a11 ^^^ a12 ^^^ a15)
        (a0 ^^^ a5 ^^^ a7 ^^^ a10 ^^^ a11 ^^^ a13 ^^^ a14),
      pk8 (a0 ^^^ a2 ^^^ a5 ^^^ a8 ^^^ a11 ^^^ a14 ^^^ a15)
        (a1 ^^^ a3 ^^^ a4 ^^^ a9 ^^^ a10 ^^^ a14 ^^^ a15)
        (a0 ^^^ a2 ^^^ a7 ^^^ a9 ^^^ a10 ^^^ a12 ^^^ a13)
        (a1 ^^^ a3 ^^^ a6 ^^^ a8 ^^^ a11 ^^^ a12 ^^^ a13),
      pk8 (a0 ^^^ a1 ^^^ a4 ^^^ a7 ^^^ a10 ^^^ a13 ^^^ a15)
        (a0 ^^^ a1 ^^^ a5 ^^^ a6 ^^^ a11 ^^^ a12 ^^^ a14)
        (a2 ^^^ a3 ^^^ a5 ^^^ a6 ^^^ a8 ^^^ a13 ^^^ a15)
        (a2 ^^^ a3 ^^^ a4 ^^^ a7 ^^^ a9 ^^^ a12 ^^^ a14),
      pk8 (a1 ^^^ a2 ^^^ a6 ^^^ a7 ^^^ a9 ^^^ a11 ^^^ a12)
        (a0 ^^^ a3 ^^^ a6 ^^^ a7 ^^^ a8 ^^^ a10 ^^^ a13)
        (a0 ^^^ a3 ^^^ a4 ^^^ a5 ^^^ a9 ^^^ a11 ^^^ a14)
        (a1 ^^^ a2 ^^^ a4 ^^^ a5 ^^^ a8 ^^^ a10 ^^^ a15)) := by
  simp only [A]
  rw [pk8_b3 a0 a1 a2 a3 h0 h1 h2 h3, pk8_b2 a0 a1 a2 a3 h0 h1 h2 h3,
    pk8_b1 a0 a1 a2 a3 h0 h1 h2 h3, pk8_b0 a0 a1 a2 a3 h0 h1 h2 h3,
    pk8_b3 a4 a5 a6 a7 h4 h5 h6 h7, pk8_b2 a4 a5 a6 a7 h4 h5 h6 h7,
    pk8_b1 a4 a5 a6 a7 h4 h5 h6 h7, pk8_b0 a4 a5 a6 a7 h4 h5 h6 h7,
    pk8_b3 a8 a9 a10 a11 h8 h9 h10 h11, pk8_b2 a8 a9 a10 a11 h8 h9 h10 h11,
    pk8_b1 a8 a9 a10 a11 h8 h9 h10 h11, pk8_b0 a8 a9 a10 a11 h8 h9 h10 h11,
    pk8_b3 a12 a13 a14 a15 h12 h13 h14 h15, pk8_b2 a12 a13 a14 a15 h12 h13 h14 h15,
    pk8_b1 a12 a13 a14 a15 h12 h13 h14 h15, pk8_b0 a12 a13 a14 a15 h12 h13 h14 h15]

theorem SLw_pk8 (t0 t1 t2 t3 : List Nat) (a b c d : Nat) (ha : a < 256) (hb : b < 256)
    (hc : c < 256) (hd : d < 256) :
    SLw t0 t1 t2 t3 (pk8 a b c d) =
      pk8 (t0.getD a 0) (t1.getD b 0) (t2.getD c 0) (t3.getD d 0) := by
  simp only [SLw]
  rw [pk8_b3 a b c d ha hb hc hd, pk8_b2 a b c d ha hb hc hd,
    pk8_b1 a b c d ha hb hc hd, pk8_b0 a b c d ha hb hc hd]

set_option maxHeartbeats 1600000 in
/-- The diffusion layer applied twice to sixteen packed bytes. -/
theorem A_A_pk8 (a0 a1 a2 a3 a4 a5 a6 a7 a8 a9 a10 a11 a12 a13 a14 a15 : Nat)
    (h0 : a0 < 256) (h1 : a1 < 256) (h2 : a2 < 256) (h3 : a3 < 256) (h4 : a4 < 256) (h5 : a5 < 256) (h6 : a6 < 256) (h7 : a7 < 256)
    (h8 : a8 < 256) (h9 : a9 < 256) (h10 : a10 < 256) (h11 : a11 < 256) (h12 : a12 < 256) (h13 : a13 < 256) (h14 : a14 < 256) (h15 : a15 < 256) :
    A (A (pk8 a0 a1 a2 a3, pk8 a4 a5 a6 a7, pk8 a8 a9 a10 a11, pk8 a12 a13 a14 a15)) =
      (pk8 a0 a1 a2 a3, pk8 a4 a5 a6 a7, pk8 a8 a9 a10 a11, pk8 a12 a13 a14 a15) := by
  rw [A_pk8 a0 a1 a2 a3 a4 a5 a6 a7 a8 a9 a10 a11 a12 a13 a14 a15
    h0 h1 h2 h3 h4 h5 h6 h7 h8 h9 h10 h11 h12 h13 h14 h15]
  rw [A_pk8 (a3 ^^^ a4 ^^^ a6 ^^^ a8 ^^^ a9 ^^^ a13 ^^^ a14)
    (a2 ^^^ a5 ^^^ a7 ^^^ a8 ^^^ a9 ^^^ a12 ^^^ a15)
    (a1 ^^^ a4 ^^^ a6 ^^^ a10 ^^^ a11 ^^^ a12 ^^^ a15)
    (a0 ^^^ a5 ^^^ a7 ^^^ a10 ^^^ a11 ^^^ a13 ^^^ a14)
    (a0 ^^^ a2 ^^^ a5 ^^^ a8 ^^^ a11 ^^^ a14 ^^^ a15)
    (a1 ^^^ a3 ^^^ a4 ^^^ a9 ^^^ a10 ^^^ a14 ^^^ a15)
    (a0 ^^^ a2 ^^^ a7 ^^^ a9 ^^^ a10 ^^^ a12 ^^^ a13)
    (a1 ^^^ a3 ^^^ a6 ^^^ a8 ^^^ a11 ^^^ a12 ^^^ a13)
    (a0 ^^^ a1 ^^^ a4 ^^^ a7 ^^^ a10 ^^^ a13 ^^^ a15)
    (a0 ^^^ a1 ^^^ a5 ^^^ a6 ^^^ a11 ^^^ a12 ^^^ a14)
    (a2 ^^^ a3 ^^^ a5 ^^^ a6 ^^^ a8 ^^^ a13 ^^^ a15)
    (a2 ^^^ a3 ^^^ a4 ^^^ a7 ^^^ a9 ^^^ a12 ^^^ a14)
    (a1 ^^^ a2 ^^^ a6 ^^^ a7 ^^^ a9 ^^^ a11 ^^^ a12)
    (a0 ^^^ a3 ^^^ a6 ^^^ a7 ^^^ a8 ^^^ a10 ^^^ a13)
    (a0 ^^^ a3 ^^^ a4 ^^^ a5 ^^^ a9 ^^^ a11 ^^^ a14)
    (a1 ^^^ a2 ^^^ a4 ^^^ a5 ^^^ a8 ^^^ a10 ^^^ a15)
    (xor7_lt h3 h4 h6 h8 h9 h13 h14)
    (xor7_lt h2 h5 h7 h8 h9 h12 h15)
    (xor7_lt h1 h4 h6 h10 h11 h12 h15)
    (xor7_lt h0 h5 h7 h10 h11 h13 h14)
    (xor7_lt h0 h2 h5 h8 h11 h14 h15)
    (xor7_lt h1 h3 h4 h9 h10 h14 h15)
    (xor7_lt h0 h2 h7 h9 h10 h12 h13)
    (xor7_lt h1 h3 h6 h8 h11 h12 h13)
    (xor7_lt h0 h1 h4 h7 h10 h13 h15)
    (xor7_lt h0 h1 h5 h6 h11 h12 h14)
    (xor7_lt h2 h3 h5 h6 h8 h13 h15)
    (xor7_lt h2 h3 h4 h7 h9 h12 h14)
    (xor7_lt h1 h2 h6 h7 h9 h11 h12)
    (xor7_lt h0 h3 h6 h7 h8 h10 h13)
    (xor7_lt h0 h3 h4 h5 h9 h11 h14)
    (xor7_lt h1 h2 h4 h5 h8 h10 h15)]
  simp [Nat.xor_comm, xor_left_comm, Nat.xor_assoc, Nat.xor_self, Nat.xor_zero,
    Nat.zero_xor, Nat.xor_cancel_left, Nat.xor_cancel_right]

theorem XOR_128_mk (p0 p1 p2 p3 q0 q1 q2 q3 : Nat) :
    XOR_128 (p0, p1, p2, p3) (q0, q1, q2, q3) =
      (p0 ^^^ q0, p1 ^^^ q1, p2 ^^^ q2, p3 ^^^ q3) := rfl

theorem pk8_xor (a b c d e f g h : Nat) (ha : a < 256) (hb : b < 256)
    (hc : c < 256) (hd : d < 256) (he : e < 256) (hf : f < 256) (hg : g < 256)
    (hh : h < 256) :
    pk8 a b c d ^^^ pk8 e f g h = pk8 (a ^^^ e) (b ^^^ f) (c ^^^ g) (d ^^^ h) := by
  apply eq_of_fields_eq 8 4
  · show _ < 2 ^ (8 * 4)
    norm_num
    exact Nat.xor_lt_two_pow (pk8_lt ha hb hc hd) (pk8_lt he hf hg hh)
  · show _ < 2 ^ (8 * 4)
    norm_num
    exact pk8_lt (xor_lt_256 ha he) (xor_lt_256 hb hf) (xor_lt_256 hc hg)
      (xor_lt_256 hd hh)
  · intro j hj
    rw [show (2:Nat) ^ 8 = 256 by norm_num]
    interval_cases j
    · rw [show (8:Nat) * 0 = 0 by norm_num, Nat.shiftRight_zero, Nat.shiftRight_zero,
        byte_xor0, pk8_b0 a b c d ha hb hc hd, pk8_b0 e f g h he hf hg hh,
        pk8_b0 _ _ _ _ (xor_lt_256 ha he) (xor_lt_256 hb hf) (xor_lt_256 hc hg)
          (xor_lt_256 hd hh)]
    · rw [show (8:Nat) * 1 = 8 by norm_num, byte_xor,
        pk8_b1 a b c d ha hb hc hd, pk8_b1 e f g h he hf hg hh,
        pk8_b1 _ _ _ _ (xor_lt_256 ha he) (xor_lt_256 hb hf) (xor_lt_256 hc hg)
          (xor_lt_256 hd hh)]
    · rw [show (8:Nat) * 2 = 16 by norm_num, byte_xor,
        pk8_b2 a b c d ha hb hc hd, pk8_b2 e f g h he hf hg hh,
        pk8_b2 _ _ _ _ (xor_lt_256 ha he) (xor_lt_256 hb hf) (xor_lt_256 hc hg)
          (xor_lt_256 hd hh)]
    · rw [show (8:Nat) * 3 = 24 by norm_num, byte_xor,
        pk8_b3 a b c d ha hb hc hd, pk8_b3 e f g h he hf hg hh,
        pk8_b3 _ _ _ _ (xor_lt_256 ha he) (xor_lt_256 hb hf) (xor_lt_256 hc hg)
          (xor_lt_256 hd hh)]

set_option maxHeartbeats 1600000 in
/-- The diffusion layer is linear over XOR on packed bytes. -/
theorem A_xor_pk8 (a0 a1 a2 a3 a4 a5 a6 a7 a8 a9 a10 a11 a12 a13 a14 a15 c0 c1 c2 c3 c4 c5 c6 c7 c8 c9 c10 c11 c12 c13 c14 c15 : Nat)
    (h0 : a0 < 256) (h1 : a1 < 256) (h2 : a2 < 256) (h3 : a3 < 256) (h4 : a4 < 256) (h5 : a5 < 256) (h6 : a6 < 256) (h7 : a7 < 256)
    (h8 : a8 < 256) (h9 : a9 < 256) (h10 : a10 < 256) (h11 : a11 < 256) (h12 : a12 < 256) (h13 : a13 < 256) (h14 : a14 < 256) (h15 : a15 < 256)
    (g0 : c0 < 256) (g1 : c1 < 256) (g2 : c2 < 256) (g3 : c3 < 256) (g4 : c4 < 256) (g5 : c5 < 256) (g6 : c6 < 256) (g7 : c7 < 256)
    (g8 : c8 < 256) (g9 : c9 < 256) (g10 : c10 < 256) (g11 : c11 < 256) (g12 : c12 < 256) (g13 : c13 < 256) (g14 : c14 < 256) (g15 : c15 < 256) :
    A (XOR_128 (pk8 a0 a1 a2 a3, pk8 a4 a5 a6 a7, pk8 a8 a9 a10 a11, pk8 a12 a13 a14 a15) (pk8 c0 c1 c2 c3, pk8 c4 c5 c6 c7, pk8 c8 c9 c10 c11, pk8 c12 c13 c14 c15)) =
      XOR_128 (A (pk8 a0 a1 a2 a3, pk8 a4 a5 a6 a7, pk8 a8 a9 a10 a11, pk8 a12 a13 a14 a15)) (A (pk8 c0 c1 c2 c3, pk8 c4 c5 c6 c7, pk8 c8 c9 c10 c11, pk8 c12 c13 c14 c15)) := by
  rw [XOR_128_mk]
  rw [pk8_xor a0 a1 a2 a3 c0 c1 c2 c3 h0 h1 h2 h3 g0 g1 g2 g3]
  rw [pk8_xor a4 a5 a6 a7 c4 c5 c6 c7 h4 h5 h6 h7 g4 g5 g6 g7]
  rw [pk8_xor a8 a9 a10 a11 c8 c9 c10 c11 h8 h9 h10 h11 g8 g9 g10 g11]
  rw [pk8_xor a12 a13 a14 a15 c12 c13 c14 c15 h12 h13 h14 h15 g12 g13 g14 g15]
  rw [A_pk8 (a0 ^^^ c0)
    (a1 ^^^ c1)
    (a2 ^^^ c2)
    (a3 ^^^ c3)
    (a4 ^^^ c4)
    (a5 ^^^ c5)
    (a6 ^^^ c6)
    (a7 ^^^ c7)
    (a8 ^^^ c8)
    (a9 ^^^ c9)
    (a10 ^^^ c10)
    (a11 ^^^ c11)
    (a12 ^^^ c12)
    (a13 ^^^ c13)
    (a14 ^^^ c14)
    (a15 ^^^ c15)
    (xor_lt_256 h0 g0)
    (xor_lt_256 h1 g1)
    (xor_lt_256 h2 g2)
    (xor_lt_256 h3 g3)
    (xor_lt_256 h4 g4)
    (xor_lt_256 h5 g5)
    (xor_lt_256 h6 g6)
    (xor_lt_256 h7 g7)
    (xor_lt_256 h8 g8)
    (xor_lt_256 h9 g9)
    (xor_lt_256 h10 g10)
    (xor_lt_256 h11 g11)
    (xor_lt_256 h12 g12)
    (xor_lt_256 h13 g13)
    (xor_lt_256 h14 g14)
    (xor_lt_256 h15 g15)]
  rw [A_pk8 a0 a1 a2 a3 a4 a5 a6 a7 a8 a9 a10 a11 a12 a13 a14 a15 h0 h1 h2 h3 h4 h5 h6 h7 h8 h9 h10 h11 h12 h13 h14 h15]
  rw [A_pk8 c0 c1 c2 c3 c4 c5 c6 c7 c8 c9 c10 c11 c12 c13 c14 c15 g0 g1 g2 g3 g4 g5 g6 g7 g8 g9 g10 g11 g12 g13 g14 g15]
  rw [XOR_128_mk]
  rw [pk8_xor (a3 ^^^ a4 ^^^ a6 ^^^ a8 ^^^ a9 ^^^ a13 ^^^ a14) (a2 ^^^ a5 ^^^ a7 ^^^ a8 ^^^ a9 ^^^ a12 ^^^ a15) (a1 ^^^ a4 ^^^ a6 ^^^ a10 ^^^ a11 ^^^ a12 ^^^ a15) (a0 ^^^ a5 ^^^ a7 ^^^ a10 ^^^ a11 ^^^ a13 ^^^ a14)
    (c3 ^^^ c4 ^^^ c6 ^^^ c8 ^^^ c9 ^^^ c13 ^^^ c14) (c2 ^^^ c5 ^^^ c7 ^^^ c8 ^^^ c9 ^^^ c12 ^^^ c15) (c1 ^^^ c4 ^^^ c6 ^^^ c10 ^^^ c11 ^^^ c12 ^^^ c15) (c0 ^^^ c5 ^^^ c7 ^^^ c10 ^^^ c11 ^^^ c13 ^^^ c14)
    (xor7_lt h3 h4 h6 h8 h9 h13 h14) (xor7_lt h2 h5 h7 h8 h9 h12 h15) (xor7_lt h1 h4 h6 h10 h11 h12 h15) (xor7_lt h0 h5 h7 h10 h11 h13 h14)
    (xor7_lt g3 g4 g6 g8 g9 g13 g14) (xor7_lt g2 g5 g7 g8 g9 g12 g15) (xor7_lt g1 g4 g6 g10 g11 g12 g15) (xor7_lt g0 g5 g7 g10 g11 g13 g14)]
  rw [pk8_xor (a0 ^^^ a2 ^^^ a5 ^^^ a8 ^^^ a11 ^^^ a14 ^^^ a15) (a1 ^^^ a3 ^^^ a4 ^^^ a9 ^^^ a10 ^^^ a14 ^^^ a15) (a0 ^^^ a2 ^^^ a7 ^^^ a9 ^^^ a10 ^^^ a12 ^^^ a13) (a1 ^^^ a3 ^^^ a6 ^^^ a8 ^^^ a11 ^^^ a12 ^^^ a13)
    (c0 ^^^ c2 ^^^ c5 ^^^ c8 ^^^ c11 ^^^ c14 ^^^ c15) (c1 ^^^ c3 ^^^ c4 ^^^ c9 ^^^ c10 ^^^ c14 ^^^ c15) (c0 ^^^ c2 ^^^ c7 ^^^ c9 ^^^ c10 ^^^ c12 ^^^ c13) (c1 ^^^ c3 ^^^ c6 ^^^ c8 ^^^ c11 ^^^ c12 ^^^ c13)
    (xor7_lt h0 h2 h5 h8 h11 h14 h15) (xor7_lt h1 h3 h4 h9 h10 h14 h15) (xor7_lt h0 h2 h7 h9 h10 h12 h13) (xor7_lt h1 h3 h6 h8 h11 h12 h13)
    (xor7_lt g0 g2 g5 g8 g11 g14 g15) (xor7_lt g1 g3 g4 g9 g10 g14 g15) (xor7_lt g0 g2 g7 g9 g10 g12 g13) (xor7_lt g1 g3 g6 g8 g11 g12 g13)]
  rw [pk8_xor (a0 ^^^ a1 ^^^ a4 ^^^ a7 ^^^ a10 ^^^ a13 ^^^ a15) (a0 ^^^ a1 ^^^ a5 ^^^ a6 ^^^ a11 ^^^ a12 ^^^ a14) (a2 ^^^ a3 ^^^ a5 ^^^ a6 ^^^ a8 ^^^ a13 ^^^ a15) (a2 ^^^ a3 ^^^ a4 ^^^ a7 ^^^ a9 ^^^ a12 ^^^ a14)
    (c0 ^^^ c1 ^^^ c4 ^^^ c7 ^^^ c10 ^^^ c13 ^^^ c15) (c0 ^^^ c1 ^^^ c5 ^^^ c6 ^^^ c11 ^^^ c12 ^^^ c14) (c2 ^^^ c3 ^^^ c5 ^^^ c6 ^^^ c8 ^^^ c13 ^^^ c15) (c2 ^^^ c3 ^^^ c4 ^^^ c7 ^^^ c9 ^^^ c12 ^^^ c14)
    (xor7_lt h0 h1 h4 h7 h10 h13 h15) (xor7_lt h0 h1 h5 h6 h11 h12 h14) (xor7_lt h2 h3 h5 h6 h8 h13 h15) (xor7_lt h2 h3 h4 h7 h9 h12 h14)
    (xor7_lt g0 g1 g4 g7 g10 g13 g15) (xor7_lt g0 g1 g5 g6 g11 g12 g14) (xor7_lt g2 g3 g5 g6 g8 g13 g15) (xor7_lt g2 g3 g4 g7 g9 g12 g14)]
  rw [pk8_xor (a1 ^^^ a2 ^^^ a6 ^^^ a7 ^^^ a9 ^^^ a11 ^^^ a12) (a0 ^^^ a3 ^^^ a6 ^^^ a7 ^^^ a8 ^^^ a10 ^^^ a13) (a0 ^^^ a3 ^^^ a4 ^^^ a5 ^^^ a9 ^^^ a11 ^^^ a14) (a1 ^^^ a2 ^^^ a4 ^^^ a5 ^^^ a8 ^^^ a10 ^^^ a15)
    (c1 ^^^ c2 ^^^ c6 ^^^ c7 ^^^ c9 ^^^ c11 ^^^ c12) (c0 ^^^ c3 ^^^ c6 ^^^ c7 ^^^ c8 ^^^ c10 ^^^ c13) (c0 ^^^ c3 ^^^ c4 ^^^ c5 ^^^ c9 ^^^ c11 ^^^ c14) (c1 ^^^ c2 ^^^ c4 ^^^ c5 ^^^ c8 ^^^ c10 ^^^ c15)
    (xor7_lt h1 h2 h6 h7 h9 h11 h12) (xor7_lt h0 h3 h6 h7 h8 h10 h13) (xor7_lt h0 h3 h4 h5 h9 h11 h14) (xor7_lt h1 h2 h4 h5 h8 h10 h15)
    (xor7_lt g1 g2 g6 g7 g9 g11 g12) (xor7_lt g0 g3 g6 g7 g8 g10 g13) (xor7_lt g0 g3 g4 g5 g9 g11 g14) (xor7_lt g1 g2 g4 g5 g8 g10 g15)]
  simp [Nat.xor_comm, xor_left_comm, Nat.xor_assoc, Nat.xor_self, Nat.xor_zero,
    Nat.zero_xor, Nat.xor_cancel_left, Nat.xor_cancel_right]

/-- SL2 undoes SL1 on packed bytes. -/
theorem SL2_SL1_pk8 (a0 a1 a2 a3 a4 a5 a6 a7 a8 a9 a10 a11 a12 a13 a14 a15 : Nat)
    (h0 : a0 < 256) (h1 : a1 < 256) (h2 : a2 < 256) (h3 : a3 < 256) (h4 : a4 < 256) (h5 : a5 < 256) (h6 : a6 < 256) (h7 : a7 < 256)
    (h8 : a8 < 256) (h9 : a9 < 256) (h10 : a10 < 256) (h11 : a11 < 256) (h12 : a12 < 256) (h13 : a13 < 256) (h14 : a14 < 256) (h15 : a15 < 256) :
    SL2 (SL1 (pk8 a0 a1 a2 a3, pk8 a4 a5 a6 a7, pk8 a8 a9 a10 a11, pk8 a12 a13 a14 a15)) = (pk8 a0 a1 a2 a3, pk8 a4 a5 a6 a7, pk8 a8 a9 a10 a11, pk8 a12 a13 a14 a15) := by
  simp only [SL1, SL2]
  rw [SLw_pk8 SB1 SB2 SB3 SB4 a0 a1 a2 a3 h0 h1 h2 h3]
  rw [SLw_pk8 SB1 SB2 SB3 SB4 a4 a5 a6 a7 h4 h5 h6 h7]
  rw [SLw_pk8 SB1 SB2 SB3 SB4 a8 a9 a10 a11 h8 h9 h10 h11]
  rw [SLw_pk8 SB1 SB2 SB3 SB4 a12 a13 a14 a15 h12 h13 h14 h15]
  rw [SLw_pk8 SB3 SB4 SB1 SB2 (SB1.getD a0 0) (SB2.getD a1 0) (SB3.getD a2 0) (SB4.getD a3 0)
    (SB1_lt' a0) (SB2_lt' a1) (SB3_lt' a2) (SB4_lt' a3)]
  rw [SLw_pk8 SB3 SB4 SB1 SB2 (SB1.getD a4 0) (SB2.getD a5 0) (SB3.getD a6 0) (SB4.getD a7 0)
    (SB1_lt' a4) (SB2_lt' a5) (SB3_lt' a6) (SB4_lt' a7)]
  rw [SLw_pk8 SB3 SB4 SB1 SB2 (SB1.getD a8 0) (SB2.getD a9 0) (SB3.getD a10 0) (SB4.getD a11 0)
    (SB1_lt' a8) (SB2_lt' a9) (SB3_lt' a10) (SB4_lt' a11)]
  rw [SLw_pk8 SB3 SB4 SB1 SB2 (SB1.getD a12 0) (SB2.getD a13 0) (SB3.getD a14 0) (SB4.getD a15 0)
    (SB1_lt' a12) (SB2_lt' a13) (SB3_lt' a14) (SB4_lt' a15)]
  rw [SB3_SB1 a0 h0, SB4_SB2 a1 h1, SB1_SB3 a2 h2, SB2_SB4 a3 h3]
  rw [SB3_SB1 a4 h4, SB4_SB2 a5 h5, SB1_SB3 a6 h6, SB2_SB4 a7 h7]
  rw [SB3_SB1 a8 h8, SB4_SB2 a9 h9, SB1_SB3 a10 h10, SB2_SB4 a11 h11]
  rw [SB3_SB1 a12 h12, SB4_SB2 a13 h13, SB1_SB3 a14 h14, SB2_SB4 a15 h15]

/-- SL1 undoes SL2 on packed bytes. -/
theorem SL1_SL2_pk8 (a0 a1 a2 a3 a4 a5 a6 a7 a8 a9 a10 a11 a12 a13 a14 a15 : Nat)
    (h0 : a0 < 256) (h1 : a1 < 256) (h2 : a2 < 256) (h3 : a3 < 256) (h4 : a4 < 256) (h5 : a5 < 256) (h6 : a6 < 256) (h7 : a7 < 256)
    (h8 : a8 < 256) (h9 : a9 < 256) (h10 : a10 < 256) (h11 : a11 < 256) (h12 : a12 < 256) (h13 : a13 < 256) (h14 : a14 < 256) (h15 : a15 < 256) :
    SL1 (SL2 (pk8 a0 a1 a2 a3, pk8 a4 a5 a6 a7, pk8 a8 a9 a10 a11, pk8 a12 a13 a14 a15)) = (pk8 a0 a1 a2 a3, pk8 a4 a5 a6 a7, pk8 a8 a9 a10 a11, pk8 a12 a13 a14 a15) := by
  simp only [SL1, SL2]
  rw [SLw_pk8 SB3 SB4 SB1 SB2 a0 a1 a2 a3 h0 h1 h2 h3]
  rw [SLw_pk8 SB3 SB4 SB1 SB2 a4 a5 a6 a7 h4 h5 h6 h7]
  rw [SLw_pk8 SB3 SB4 SB1 SB2 a8 a9 a10 a11 h8 h9 h10 h11]
  rw [SLw_pk8 SB3 SB4 SB1 SB2 a12 a13 a14 a15 h12 h13 h14 h15]
  rw [SLw_pk8 SB1 SB2 SB3 SB4 (SB3.getD a0 0) (SB4.getD a1 0) (SB1.getD a2 0) (SB2.getD a3 0)
    (SB3_lt' a0) (SB4_lt' a1) (SB1_lt' a2) (SB2_lt' a3)]
  rw [SLw_pk8 SB1 SB2 SB3 SB4 (SB3.getD a4 0) (SB4.getD a5 0) (SB1.getD a6 0) (SB2.getD a7 0)
    (SB3_lt' a4) (SB4_lt' a5) (SB1_lt' a6) (SB2_lt' a7)]
  rw [SLw_pk8 SB1 SB2 SB3 SB4 (SB3.getD a8 0) (SB4.getD a9 0) (SB1.getD a10 0) (SB2.getD a11 0)
    (SB3_lt' a8) (SB4_lt' a9) (SB1_lt' a10) (SB2_lt' a11)]
  rw [SLw_pk8 SB1 SB2 SB3 SB4 (SB3.getD a12 0) (SB4.getD a13 0) (SB1.getD a14 0) (SB2.getD a15 0)
    (SB3_lt' a12) (SB4_lt' a13) (SB1_lt' a14) (SB2_lt' a15)]
  rw [SB1_SB3 a0 h0, SB2_SB4 a1 h1, SB3_SB1 a2 h2, SB4_SB2 a3 h3]
  rw [SB1_SB3 a4 h4, SB2_SB4 a5 h5, SB3_SB1 a6 h6, SB4_SB2 a7 h7]
  rw [SB1_SB3 a8 h8, SB2_SB4 a9 h9, SB3_SB1 a10 h10, SB4_SB2 a11 h11]
  rw [SB1_SB3 a12 h12, SB2_SB4 a13 h13, SB3_SB1 a14 h14, SB4_SB2 a15 h15]

/-- Claim-level form of the diffusion involution. -/
theorem A_A (x : Word4) (hx : valid4 x) : A (A x) = x := by
  obtain ⟨w0, w1, w2, w3⟩ := x
  obtain ⟨h0, h1, h2, h3⟩ := hx
  have hm : ∀ w q : Nat, w >>> q % 256 < 256 := fun w q => Nat.mod_lt _ (by norm_num)
  have hm0 : ∀ w : Nat, w % 256 < 256 := fun w => Nat.mod_lt _ (by norm_num)
  have h := A_A_pk8 (w0 >>> 24 % 256) (w0 >>> 16 % 256) (w0 >>> 8 % 256) (w0 % 256)
    (w1 >>> 24 % 256) (w1 >>> 16 % 256) (w1 >>> 8 % 256) (w1 % 256)
    (w2 >>> 24 % 256) (w2 >>> 16 % 256) (w2 >>> 8 % 256) (w2 % 256)
    (w3 >>> 24 % 256) (w3 >>> 16 % 256) (w3 >>> 8 % 256) (w3 % 256)
    (hm w0 24) (hm w0 16) (hm w0 8) (hm0 w0)
    (hm w1 24) (hm w1 16) (hm w1 8) (hm0 w1)
    (hm w2 24) (hm w2 16) (hm w2 8) (hm0 w2)
    (hm w3 24) (hm w3 16) (hm w3 8) (hm0 w3)
  rw [eta4 w0 w1 w2 w3 h0 h1 h2 h3] at h
  exact h

/-- The diffusion layer is XOR-linear on valid quadruples. -/
theorem A_xor (x y : Word4) (hx : valid4 x) (hy : valid4 y) :
    A (XOR_128 x y) = XOR_128 (A x) (A y) := by
  obtain ⟨w0, w1, w2, w3⟩ := x
  obtain ⟨v0, v1, v2, v3⟩ := y
  obtain ⟨h0, h1, h2, h3⟩ := hx
  obtain ⟨g0, g1, g2, g3⟩ := hy
  have hm : ∀ w q : Nat, w >>> q % 256 < 256 := fun w q => Nat.mod_lt _ (by norm_num)
  have hm0 : ∀ w : Nat, w % 256 < 256 := fun w => Nat.mod_lt _ (by norm_num)
  have h := A_xor_pk8 (w0 >>> 24 % 256) (w0 >>> 16 % 256) (w0 >>> 8 % 256) (w0 % 256)
    (w1 >>> 24 % 256) (w1 >>> 16 % 256) (w1 >>> 8 % 256) (w1 % 256)
    (w2 >>> 24 % 256) (w2 >>> 16 % 256) (w2 >>> 8 % 256) (w2 % 256)
    (w3 >>> 24 % 256) (w3 >>> 16 % 256) (w3 >>> 8 % 256) (w3 % 256)
    (v0 >>> 24 % 256) (v0 >>> 16 % 256) (v0 >>> 8 % 256) (v0 % 256)
    (v1 >>> 24 % 256) (v1 >>> 16 % 256) (v1 >>> 8 % 256) (v1 % 256)
    (v2 >>> 24 % 256) (v2 >>> 16 % 256) (v2 >>> 8 % 256) (v2 % 256)
    (v3 >>> 24 % 256) (v3 >>> 16 % 256) (v3 >>> 8 % 256) (v3 % 256)
    (hm w0 24) (hm w0 16) (hm w0 8) (hm0 w0)
    (hm w1 24) (hm w1 16) (hm w1 8) (hm0 w1)
    (hm w2 24) (hm w2 16) (hm w2 8) (hm0 w2)
    (hm w3 24) (hm w3 16) (hm w3 8) (hm0 w3)
    (hm v0 24) (hm v0 16) (hm v0 8) (hm0 v0)
    (hm v1 24) (hm v1 16) (hm v1 8) (hm0 v1)
    (hm v2 24) (hm v2 16) (hm v2 8) (hm0 v2)
    (hm v3 24) (hm v3 16) (hm v3 8) (hm0 v3)
  rw [eta4 w0 w1 w2 w3 h0 h1 h2 h3, eta4 v0 v1 v2 v3 g0 g1 g2 g3] at h
  exact h

/-- SL2 undoes SL1 on every valid quadruple. -/
theorem SL2_SL1 (x : Word4) (hx : valid4 x) : SL2 (SL1 x) = x := by
  obtain ⟨w0, w1, w2, w3⟩ := x
  obtain ⟨h0, h1, h2, h3⟩ := hx
  have hm : ∀ w q : Nat, w >>> q % 256 < 256 := fun w q => Nat.mod_lt _ (by norm_num)
  have hm0 : ∀ w : Nat, w % 256 < 256 := fun w => Nat.mod_lt _ (by norm_num)
  have h := SL2_SL1_pk8 (w0 >>> 24 % 256) (w0 >>> 16 % 256) (w0 >>> 8 % 256) (w0 % 256)
    (w1 >>> 24 % 256) (w1 >>> 16 % 256) (w1 >>> 8 % 256) (w1 % 256)
    (w2 >>> 24 % 256) (w2 >>> 16 % 256) (w2 >>> 8 % 256) (w2 % 256)
    (w3 >>> 24 % 256) (w3 >>> 16 % 256) (w3 >>> 8 % 256) (w3 % 256)
    (hm w0 24) (hm w0 16) (hm w0 8) (hm0 w0)
    (hm w1 24) (hm w1 16) (hm w1 8) (hm0 w1)
    (hm w2 24) (hm w2 16) (hm w2 8) (hm0 w2)
    (hm w3 24) (hm w3 16) (hm w3 8) (hm0 w3)
  rw [eta4 w0 w1 w2 w3 h0 h1 h2 h3] at h
  exact h

/-- SL1 undoes SL2 on every valid quadruple. -/
theorem SL1_SL2 (x : Word4) (hx : valid4 x) : SL1 (SL2 x) = x := by
  obtain ⟨w0, w1, w2, w3⟩ := x
  obtain ⟨h0, h1, h2, h3⟩ := hx
  have hm : ∀ w q : Nat, w >>> q % 256 < 256 := fun w q => Nat.mod_lt _ (by norm_num)
  have hm0 : ∀ w : Nat, w % 256 < 256 := fun w => Nat.mod_lt _ (by norm_num)
  have h := SL1_SL2_pk8 (w0 >>> 24 % 256) (w0 >>> 16 % 256) (w0 >>> 8 % 256) (w0 % 256)
    (w1 >>> 24 % 256) (w1 >>> 16 % 256) (w1 >>> 8 % 256) (w1 % 256)
    (w2 >>> 24 % 256) (w2 >>> 16 % 256) (w2 >>> 8 % 256) (w2 % 256)
    (w3 >>> 24 % 256) (w3 >>> 16 % 256) (w3 >>> 8 % 256) (w3 % 256)
    (hm w0 24) (hm w0 16) (hm w0 8) (hm0 w0)
    (hm w1 24) (hm w1 16) (hm w1 8) (hm0 w1)
    (hm w2 24) (hm w2 16) (hm w2 8) (hm0 w2)
    (hm w3 24) (hm w3 16) (hm w3 8) (hm0 w3)
  rw [eta4 w0 w1 w2 w3 h0 h1 h2 h3] at h
  exact h

theorem XOR_128_cancel (z k : Word4) : XOR_128 (XOR_128 z k) k = z := by
  obtain ⟨a, b, c, d⟩ := z
  obtain ⟨e, f, g, h⟩ := k
  simp [XOR_128, Nat.xor_cancel_right]

/-- First decryption round: `dk1 = ek13` peels the final whitening of the
encryption. -/
theorem dec_start (P e12 e13 : Word4) (hP : valid4 P) (h12 : valid4 e12) :
    FO (XOR_128 (SL2 (XOR_128 P e12)) e13) e13 = A (XOR_128 P e12) := by
  simp only [FO, MOV_128]
  rw [XOR_128_cancel, SL1_SL2 _ (valid4_xor4 hP h12)]

/-- An even decryption round undoes the matching odd encryption round. -/
theorem decFE (Pp ee e' : Word4) (hPp : valid4 Pp) (hee : valid4 ee)
    (he' : valid4 e') :
    FE (A (XOR_128 (FO Pp ee) e')) (A e') = A (XOR_128 Pp ee) := by
  simp only [FE, FO, MOV_128]
  rw [A_xor _ e' (valid4_A _) he', XOR_128_cancel, A_A _ (valid4_SL1 _),
    SL2_SL1 _ (valid4_xor4 hPp hee)]

/-- An odd decryption round undoes the matching even encryption round. -/
theorem decFO (Pp ee e' : Word4) (hPp : valid4 Pp) (hee : valid4 ee)
    (he' : valid4 e') :
    FO (A (XOR_128 (FE Pp ee) e')) (A e') = A (XOR_128 Pp ee) := by
  simp only [FO, FE, MOV_128]
  rw [A_xor _ e' (valid4_A _) he', XOR_128_cancel, A_A _ (valid4_SL2 _),
    SL1_SL2 _ (valid4_xor4 hPp hee)]

/-- The decryption tail `SL2 between dk12 = A ek2 and dk13 = ek1` recovers
the plaintext. -/
theorem dec_end (blockv e1 e2 : Word4) (hb : valid4 blockv) (h1 : valid4 e1)
    (h2 : valid4 e2) :
    XOR_128 (SL2 (XOR_128 (A (XOR_128 (FO blockv e1) e2)) (A e2))) e1 = blockv := by
  simp only [FO, MOV_128]
  rw [A_xor _ e2 (valid4_A _) h2, XOR_128_cancel, A_A _ (valid4_SL1 _),
    SL2_SL1 _ (valid4_xor4 hb h1), XOR_128_cancel]

def validKeys (e : AriaKeys) : Prop :=
  valid4 e.k1 ∧ valid4 e.k2 ∧ valid4 e.k3 ∧ valid4 e.k4 ∧ valid4 e.k5 ∧
  valid4 e.k6 ∧ valid4 e.k7 ∧ valid4 e.k8 ∧ valid4 e.k9 ∧ valid4 e.k10 ∧
  valid4 e.k11 ∧ valid4 e.k12 ∧ valid4 e.k13

theorem validKeys_gen (W0 W1 W2 W3 : Word4) (h0 : valid4 W0) (h1 : valid4 W1)
    (h2 : valid4 W2) (h3 : valid4 W3) :
    validKeys (generateEncryptionKeys W0 W1 W2 W3) := by
  unfold validKeys generateEncryptionKeys
  refine ⟨?_, ?_, ?_, ?_, ?_, ?_, ?_, ?_, ?_, ?_, ?_, ?_, ?_⟩
  · exact valid4_xor4 (valid4_ROR 19 h1) h0
  · exact valid4_xor4 (valid4_ROR 19 h2) h1
  · exact valid4_xor4 (valid4_ROR 19 h3) h2
  · exact valid4_xor4 (valid4_ROR 19 h0) h3
  · exact valid4_xor4 (valid4_ROR 31 h1) h0
  · exact valid4_xor4 (valid4_ROR 31 h2) h1
  · exact valid4_xor4 (valid4_ROR 31 h3) h2
  · exact valid4_xor4 (valid4_ROR 31 h0) h3
  · exact valid4_xor4 (valid4_ROL 30 (valid4_ROL 31 h1)) h0
  · exact valid4_xor4 (valid4_ROL 30 (valid4_ROL 31 h2)) h1
  · exact valid4_xor4 (valid4_ROL 30 (valid4_ROL 31 h3)) h2
  · exact valid4_xor4 (valid4_ROL 30 (valid4_ROL 31 h0)) h3
  · exact valid4_xor4 (valid4_ROL 31 h1) h0

/-- The round sequence run with the derived decryption keys inverts the
round sequence run with the encryption keys. -/
theorem rounds_inverse (block : Word4) (e : AriaKeys) (hb : valid4 block)
    (he : validKeys e) :
    rounds (rounds block e) (generateDecryptionKeys e) = block := by
  obtain ⟨h1, h2, h3, h4, h5, h6, h7, h8, h9, h10, h11, h12, h13⟩ := he
  simp only [rounds, generateDecryptionKeys, MOV_128]
  rw [dec_start _ _ _ (valid4_FO _ _) h12,
    decFE _ _ _ (valid4_FE _ _) h11 h12,
    decFO _ _ _ (valid4_FO _ _) h10 h11,
    decFE _ _ _ (valid4_FE _ _) h9 h10,
    decFO _ _ _ (valid4_FO _ _) h8 h9,
    decFE _ _ _ (valid4_FE _ _) h7 h8,
    decFO _ _ _ (valid4_FO _ _) h6 h7,
    decFE _ _ _ (valid4_FE _ _) h5 h6,
    decFO _ _ _ (valid4_FO _ _) h4 h5,
    decFE _ _ _ (valid4_FE _ _) h3 h4,
    decFO _ _ _ (valid4_FO _ _) h2 h3,
    dec_end block e.k1 e.k2 hb h1 h2]

/-- ARIA round-trip through the global-state model: decrypting right after
encrypting with the same key recovers the block. -/
theorem ARIA_decrypt_encrypt (s : AriaState) (hKR : valid4 s.KR)
    (block key : Word4) (hb : valid4 block) (hk : valid4 key) :
    (ARIA_decrypt (ARIA_encrypt s block key).1 (ARIA_encrypt s block key).2 key).2 =
      block := by
  simp only [ARIA_encrypt, ARIA_decrypt, MOV_128]
  exact rounds_inverse block _ hb
    (validKeys_gen key _ _ _ hk
      (valid4_xor4 (valid4_FO _ _) hKR)
      (valid4_xor4 (valid4_FE _ _) hk)
      (valid4_xor4 (valid4_FO _ _) (valid4_xor4 (valid4_FO _ _) hKR)))

end ARIA

/-- The ARIA global states reachable by some sequence of `ARIA_encrypt` and
`ARIA_decrypt` calls from the zero-initialised file-scope registers. -/
inductive Reach : ARIA.AriaState → Prop
  | init : Reach ARIA.initState
  | enc (s : ARIA.AriaState) (b k : ARIA.Word4) :
      Reach s → Reach (ARIA.ARIA_encrypt s b k).1
  | dec (s : ARIA.AriaState) (b k : ARIA.Word4) :
      Reach s → Reach (ARIA.ARIA_decrypt s b k).1

/-- No call ever writes the `KR` register, so it stays zero. -/
theorem Reach_KR {s : ARIA.AriaState} (h : Reach s) : s.KR = ARIA.zero4 := by
  induction h with
  | init => rfl
  | enc s b k _ ih => simpa [ARIA.ARIA_encrypt] using ih
  | dec s b k _ ih => simpa [ARIA.ARIA_decrypt] using ih

/-- Claim C3: the spec says an unsupported key length fails with
InvalidKeySize and produces no schedule.  The code has no error path at
all: `PRESENT_init` with the unsupported length 64 runs the 128-bit
else-branch and returns the very schedule of length 128, and `SIMON_init`
with the unsupported length 100 runs the 256-bit else-branch and returns
the very context of length 256 — the key length is silently coerced. -/
theorem C3_silent_coercion :
    (∀ key : List Nat, PRESENT.PRESENT_init key 64 = PRESENT.PRESENT_init key 128) ∧
    (∀ key : List Nat, SIMON.SIMON_init key 100 = SIMON.SIMON_init key 256) := by
  constructor
  · intro key
    rfl
  · intro key
    rfl

/-- Claim C4: the output block of `ARIA_decrypt` does not depend on the key
argument — from any one prior global state, decrypting a block under two
different keys returns the same result, because the decryption keys are
derived from the global `ek` registers alone. -/
theorem C4_decrypt_ignores_key (s : ARIA.AriaState) (block k1 k2 : ARIA.Word4) :
    (ARIA.ARIA_decrypt s block k1).2 = (ARIA.ARIA_decrypt s block k2).2 := rfl

/-- Claim C8: the diffusion layer `A` of ARIA is an involution on 128-bit
values (four 32-bit words). -/
theorem C8_A_involution (x : ARIA.Word4) (hx : ARIA.valid4 x) :
    ARIA.A (ARIA.A x) = x :=
  ARIA.A_A x hx

/-- Witness for C8 at the concrete value 0x01020304 05060708 090a0b0c 0d0e0f10. -/
theorem C8_A_involution_witness :
    ARIA.A (ARIA.A (0x01020304, 0x05060708, 0x090a0b0c, 0x0d0e0f10)) =
      (0x01020304, 0x05060708, 0x090a0b0c, 0x0d0e0f10) :=
  C8_A_involution (0x01020304, 0x05060708, 0x090a0b0c, 0x0d0e0f10)
    ⟨by norm_num, by norm_num, by norm_num, by norm_num⟩

/-- Claim C9: for every key (and any prior global state), after
`ARIA_encrypt` has derived the encryption schedule and `ARIA_decrypt` has
derived the decryption schedule from it, dk1 = ek13, dk13 = ek1, and
dk i = A (ek (14 - i)) for 2 ≤ i ≤ 12. -/
theorem C9_schedule_symmetry (s : ARIA.AriaState) (b c key key2 : ARIA.Word4) :
    let e := ((ARIA.ARIA_encrypt s b key).1).ek
    let d := ((ARIA.ARIA_decrypt (ARIA.ARIA_encrypt s b key).1 c key2).1).dk
    d.k1 = e.k13 ∧ d.k13 = e.k1 ∧
    d.k2 = ARIA.A e.k12 ∧ d.k3 = ARIA.A e.k11 ∧ d.k4 = ARIA.A e.k10 ∧
    d.k5 = ARIA.A e.k9 ∧ d.k6 = ARIA.A e.k8 ∧ d.k7 = ARIA.A e.k7 ∧
    d.k8 = ARIA.A e.k6 ∧ d.k9 = ARIA.A e.k5 ∧ d.k10 = ARIA.A e.k4 ∧
    d.k11 = ARIA.A e.k3 ∧ d.k12 = ARIA.A e.k2 :=
  ⟨rfl, rfl, rfl, rfl, rfl, rfl, rfl, rfl, rfl, rfl, rfl, rfl, rfl⟩

/-- Claim C10: key-length dispatch never rejects an input.  Every length
other than 80 takes the 128-bit branch of `PRESENT_init`, every length
other than 128 and 192 takes the 256-bit branch of `SIMON_init`, and no
branch signals an error. -/
theorem C10_dispatch_total :
    (∀ (key : List Nat) (keyLen : Nat), keyLen ≠ 80 →
      PRESENT.PRESENT_init key keyLen = PRESENT.PRESENT_init key 128) ∧
    (∀ (key : List Nat) (keyLen : Nat), keyLen ≠ 128 → keyLen ≠ 192 →
      SIMON.SIMON_init key keyLen = SIMON.SIMON_init key 256) := by
  constructor
  · intro key keyLen h
    have h80 : (128 : Nat) ≠ 80 := by norm_num
    simp only [PRESENT.PRESENT_init, if_neg h, if_neg h80]
  · intro key keyLen h1 h2
    have h128 : (256 : Nat) ≠ 128 := by norm_num
    have h192 : (256 : Nat) ≠ 192 := by norm_num
    simp only [SIMON.SIMON_init, if_neg h1, if_neg h2, if_neg h128, if_neg h192]

/-- Witness for C10 at the unsupported lengths 64 (PRESENT) and 100 (SIMON). -/
theorem C10_dispatch_total_witness :
    PRESENT.PRESENT_init [1, 2, 3, 4, 5, 6, 7, 8] 64 =
      PRESENT.PRESENT_init [1, 2, 3, 4, 5, 6, 7, 8] 128 ∧
    SIMON.SIMON_init [1, 2, 3, 4] 100 = SIMON.SIMON_init [1, 2, 3, 4] 256 :=
  ⟨C10_dispatch_total.1 [1, 2, 3, 4, 5, 6, 7, 8] 64 (by norm_num),
   C10_dispatch_total.2 [1, 2, 3, 4] 100 (by norm_num) (by norm_num)⟩

set_option maxRecDepth 4000 in
/-- The PRESENT-128 round-key schedule of the all-zero key, evaluated. -/
theorem present_zero_schedule :
    PRESENT.PRESENT_init [0, 0, 0, 0, 0, 0, 0, 0] 128 =
      [0x0, 0xcc00000000000000, 0xcb00000000000000, 0x5b30000000000000,
       0x5b2c000000000001, 0x656cc00000000001, 0x6f6cb00000000001, 0xb595b30000000001,
       0xbfbdb2c000000002, 0xd6d656cc00000002, 0xdffef6cb00000002, 0x5b5b595b30000002,
       0x5b7ffbdb2c000003, 0xe56d6d656cc00003, 0xef6dffef6cb00003, 0xfb95b5b595b30003,
       0xfbbdb7ffbdb2c004, 0xbbee56d6d656cc04, 0xbbeef6dffef6cb04, 0xf6efb95b5b595b34,
       0xffefbbdb7ffbdb29, 0x6bdbbee56d6d6569, 0xbbffbeef6dffef69, 0x65af6efb95b5b590,
       0xcfeffefbbdb7ffbb, 0xf596bdbbee56d6d0, 0xcb3fbffbeef6dff8, 0xcfd65af6efb95b5d,
       0xbb2cfeffefbbdb78, 0x5f3f596bdbbee56a, 0xdeecb3fbffbeef6a, 0xdf7cfd65af6efb92] := by
  decide

set_option maxRecDepth 2000 in
/-- The 31 encryption rounds of PRESENT on the zero block under the zero-key
schedule, evaluated round by round. -/
theorem present_zero_rounds (ks : Nat → Nat)
    (h0 : ks 0 = 0x0) (h1 : ks 1 = 0xcc00000000000000) (h2 : ks 2 = 0xcb00000000000000)
    (h3 : ks 3 = 0x5b30000000000000) (h4 : ks 4 = 0x5b2c000000000001)
    (h5 : ks 5 = 0x656cc00000000001) (h6 : ks 6 = 0x6f6cb00000000001)
    (h7 : ks 7 = 0xb595b30000000001) (h8 : ks 8 = 0xbfbdb2c000000002)
    (h9 : ks 9 = 0xd6d656cc00000002) (h10 : ks 10 = 0xdffef6cb00000002)
    (h11 : ks 11 = 0x5b5b595b30000002) (h12 : ks 12 = 0x5b7ffbdb2c000003)
    (h13 : ks 13 = 0xe56d6d656cc00003) (h14 : ks 14 = 0xef6dffef6cb00003)
    (h15 : ks 15 = 0xfb95b5b595b30003) (h16 : ks 16 = 0xfbbdb7ffbdb2c004)
    (h17 : ks 17 = 0xbbee56d6d656cc04) (h18 : ks 18 = 0xbbeef6dffef6cb04)
    (h19 : ks 19 = 0xf6efb95b5b595b34) (h20 : ks 20 = 0xffefbbdb7ffbdb29)
    (h21 : ks 21 = 0x6bdbbee56d6d6569) (h22 : ks 22 = 0xbbffbeef6dffef69)
    (h23 : ks 23 = 0x65af6efb95b5b590) (h24 : ks 24 = 0xcfeffefbbdb7ffbb)
    (h25 : ks 25 = 0xf596bdbbee56d6d0) (h26 : ks 26 = 0xcb3fbffbeef6dff8)
    (h27 : ks 27 = 0xcfd65af6efb95b5d) (h28 : ks 28 = 0xbb2cfeffefbbdb78)
    (h29 : ks 29 = 0x5f3f596bdbbee56a) (h30 : ks 30 = 0xdeecb3fbffbeef6a) :
    PRESENT.encRounds ks 31 0 = 0xdbc128914581378b := by
  have e0 : PRESENT.encRounds ks 0 0 = 0 := rfl
  have e1 : PRESENT.encRounds ks 1 0 = 0xffffffff00000000 := by
    have t : PRESENT.encRounds ks 1 0 =
        PRESENT.pLayer (PRESENT.sLayer PRESENT.sbox (PRESENT.encRounds ks 0 0 ^^^ ks 0)) := rfl
    rw [t, e0, h0]
    decide
  have e2 : PRESENT.encRounds ks 2 0 = 0xc0ff00ffff00c000 := by
    have t : PRESENT.encRounds ks 2 0 =
        PRESENT.pLayer (PRESENT.sLayer PRESENT.sbox (PRESENT.encRounds ks 1 0 ^^^ ks 1)) := rfl
    rw [t, e1, h1]
    decide
  have e3 : PRESENT.encRounds ks 3 0 = 0xcc378c3f33c00000 := by
    have t : PRESENT.encRounds ks 3 0 =
        PRESENT.pLayer (PRESENT.sLayer PRESENT.sbox (PRESENT.encRounds ks 2 0 ^^^ ks 2)) := rfl
    rw [t, e2, h2]
    decide
  have e4 : PRESENT.encRounds ks 4 0 = 0xf2dff43f8bc05ac0 := by
    have t : PRESENT.encRounds ks 4 0 =
        PRESENT.pLayer (PRESENT.sLayer PRESENT.sbox (PRESENT.encRounds ks 3 0 ^^^ ks 3)) := rfl
    rw [t, e3, h3]
    decide
  have e5 : PRESENT.encRounds ks 5 0 = 0xd654c037fb849685 := by
    have t : PRESENT.encRounds ks 5 0 =
        PRESENT.pLayer (PRESENT.sLayer PRESENT.sbox (PRESENT.encRounds ks 4 0 ^^^ ks 4)) := rfl
    rw [t, e4, h4]
    decide
  have e6 : PRESENT.encRounds ks 6 0 = 0xef5d0d0872ae7333 := by
    have t : PRESENT.encRounds ks 6 0 =
        PRESENT.pLayer (PRESENT.sLayer PRESENT.sbox (PRESENT.encRounds ks 5 0 ^^^ ks 5)) := rfl
    rw [t, e5, h5]
    decide
  have e7 : PRESENT.encRounds ks 7 0 = 0x6aae56e9a567b5be := by
    have t : PRESENT.encRounds ks 7 0 =
        PRESENT.pLayer (PRESENT.sLayer PRESENT.sbox (PRESENT.encRounds ks 6 0 ^^^ ks 6)) := rfl
    rw [t, e6, h6]
    decide
  have e8 : PRESENT.encRounds ks 8 0 = 0x31ba8190e1a1aa90 := by
    have t : PRESENT.encRounds ks 8 0 =
        PRESENT.pLayer (PRESENT.sLayer PRESENT.sbox (PRESENT.encRounds ks 7 0 ^^^ ks 7)) := rfl
    rw [t, e7, h7]
    decide
  have e9 : PRESENT.encRounds ks 9 0 = 0x3d2e317f8c2fdcfc := by
    have t : PRESENT.encRounds ks 9 0 =
        PRESENT.pLayer (PRESENT.sLayer PRESENT.sbox (PRESENT.encRounds ks 8 0 ^^^ ks 8)) := rfl
    rw [t, e8, h8]
    decide
  have e10 : PRESENT.encRounds ks 10 0 = 0x4f00046c39ba9589 := by
    have t : PRESENT.encRounds ks 10 0 =
        PRESENT.pLayer (PRESENT.sLayer PRESENT.sbox (PRESENT.encRounds ks 9 0 ^^^ ks 9)) := rfl
    rw [t, e9, h9]
    decide
  have e11 : PRESENT.encRounds ks 11 0 = 0xc3f9c758aeda1392 := by
    have t : PRESENT.encRounds ks 11 0 =
        PRESENT.pLayer (PRESENT.sLayer PRESENT.sbox (PRESENT.encRounds ks 10 0 ^^^ ks 10)) := rfl
    rw [t, e10, h10]
    decide
  have e12 : PRESENT.encRounds ks 12 0 = 0xab97babbf9b6657c := by
    have t : PRESENT.encRounds ks 12 0 =
        PRESENT.pLayer (PRESENT.sLayer PRESENT.sbox (PRESENT.encRounds ks 11 0 ^^^ ks 11)) := rfl
    rw [t, e11, h11]
    decide
  have e13 : PRESENT.encRounds ks 13 0 = 0x4b3a458292993c82 := by
    have t : PRESENT.encRounds ks 13 0 =
        PRESENT.pLayer (PRESENT.sLayer PRESENT.sbox (PRESENT.encRounds ks 12 0 ^^^ ks 12)) := rfl
    rw [t, e12, h12]
    decide
  have e14 : PRESENT.encRounds ks 14 0 = 0x911899158c9ad74b := by
    have t : PRESENT.encRounds ks 14 0 =
        PRESENT.pLayer (PRESENT.sLayer PRESENT.sbox (PRESENT.encRounds ks 13 0 ^^^ ks 13)) := rfl
    rw [t, e13, h13]
    decide
  have e15 : PRESENT.encRounds ks 15 0 = 0xad56a17c0f39e19f := by
    have t : PRESENT.encRounds ks 15 0 =
        PRESENT.pLayer (PRESENT.sLayer PRESENT.sbox (PRESENT.encRounds ks 14 0 ^^^ ks 14)) := rfl
    rw [t, e14, h14]
    decide
  have e16 : PRESENT.encRounds ks 16 0 = 0x55d22bd751f21c7c := by
    have t : PRESENT.encRounds ks 16 0 =
        PRESENT.pLayer (PRESENT.sLayer PRESENT.sbox (PRESENT.encRounds ks 15 0 ^^^ ks 15)) := rfl
    rw [t, e15, h15]
    decide
  have e17 : PRESENT.encRounds ks 17 0 = 0xa8328e5ebb09c1ab := by
    have t : PRESENT.encRounds ks 17 0 =
        PRESENT.pLayer (PRESENT.sLayer PRESENT.sbox (PRESENT.encRounds ks 16 0 ^^^ ks 16)) := rfl
    rw [t, e16, h16]
    decide
  have e18 : PRESENT.encRounds ks 18 0 = 0x408ab84e6fd7ef46 := by
    have t : PRESENT.encRounds ks 18 0 =
        PRESENT.pLayer (PRESENT.sLayer PRESENT.sbox (PRESENT.encRounds ks 17 0 ^^^ ks 17)) := rfl
    rw [t, e17, h17]
    decide
  have e19 : PRESENT.encRounds ks 19 0 = 0x7a8603f9a2a91d56 := by
    have t : PRESENT.encRounds ks 19 0 =
        PRESENT.pLayer (PRESENT.sLayer PRESENT.sbox (PRESENT.encRounds ks 18 0 ^^^ ks 18)) := rfl
    rw [t, e18, h18]
    decide
  have e20 : PRESENT.encRounds ks 20 0 = 0x3e5e5751b7e78608 := by
    have t : PRESENT.encRounds ks 20 0 =
        PRESENT.pLayer (PRESENT.sLayer PRESENT.sbox (PRESENT.encRounds ks 19 0 ^^^ ks 19)) := rfl
    rw [t, e19, h19]
    decide
  have e21 : PRESENT.encRounds ks 21 0 = 0x2100d5b703465b65 := by
    have t : PRESENT.encRounds ks 21 0 =
        PRESENT.pLayer (PRESENT.sLayer PRESENT.sbox (PRESENT.encRounds ks 20 0 ^^^ ks 20)) := rfl
    rw [t, e20, h20]
    decide
  have e22 : PRESENT.encRounds ks 22 0 = 0xdc9a612369a8e04c := by
    have t : PRESENT.encRounds ks 22 0 =
        PRESENT.pLayer (PRESENT.sLayer PRESENT.sbox (PRESENT.encRounds ks 21 0 ^^^ ks 21)) := rfl
    rw [t, e21, h21]
    decide
  have e23 : PRESENT.encRounds ks 23 0 = 0xe0d84b9aac064850 := by
    have t : PRESENT.encRounds ks 23 0 =
        PRESENT.pLayer (PRESENT.sLayer PRESENT.sbox (PRESENT.encRounds ks 22 0 ^^^ ks 22)) := rfl
    rw [t, e22, h22]
    decide
  have e24 : PRESENT.encRounds ks 24 0 = 0x32f139478adcb194 := by
    have t : PRESENT.encRounds ks 24 0 =
        PRESENT.pLayer (PRESENT.sLayer PRESENT.sbox (PRESENT.encRounds ks 23 0 ^^^ ks 23)) := rfl
    rw [t, e23, h23]
    decide
  have e25 : PRESENT.encRounds ks 25 0 = 0x6f86d42c0a374cc := by
    have t : PRESENT.encRounds ks 25 0 =
        PRESENT.pLayer (PRESENT.sLayer PRESENT.sbox (PRESENT.encRounds ks 24 0 ^^^ ks 24)) := rfl
    rw [t, e24, h24]
    decide
  have e26 : PRESENT.encRounds ks 26 0 = 0x65080d8febac584a := by
    have t : PRESENT.encRounds ks 26 0 =
        PRESENT.pLayer (PRESENT.sLayer PRESENT.sbox (PRESENT.encRounds ks 25 0 ^^^ ks 25)) := rfl
    rw [t, e25, h25]
    decide
  have e27 : PRESENT.encRounds ks 27 0 = 0xbb969695a419f31c := by
    have t : PRESENT.encRounds ks 27 0 =
        PRESENT.pLayer (PRESENT.sLayer PRESENT.sbox (PRESENT.encRounds ks 26 0 ^^^ ks 26)) := rfl
    rw [t, e26, h26]
    decide
  have e28 : PRESENT.encRounds ks 28 0 = 0xf3fa9c39032ce1af := by
    have t : PRESENT.encRounds ks 28 0 =
        PRESENT.pLayer (PRESENT.sLayer PRESENT.sbox (PRESENT.encRounds ks 27 0 ^^^ ks 27)) := rfl
    rw [t, e27, h27]
    decide
  have e29 : PRESENT.encRounds ks 29 0 = 0x993d26777d2ee09f := by
    have t : PRESENT.encRounds ks 29 0 =
        PRESENT.pLayer (PRESENT.sLayer PRESENT.sbox (PRESENT.encRounds ks 28 0 ^^^ ks 28)) := rfl
    rw [t, e28, h28]
    decide
  have e30 : PRESENT.encRounds ks 30 0 = 0x68f8bbb854e20a80 := by
    have t : PRESENT.encRounds ks 30 0 =
        PRESENT.pLayer (PRESENT.sLayer PRESENT.sbox (PRESENT.encRounds ks 29 0 ^^^ ks 29)) := rfl
    rw [t, e29, h29]
    decide
  have e31 : PRESENT.encRounds ks 31 0 = 0xdbc128914581378b := by
    have t : PRESENT.encRounds ks 31 0 =
        PRESENT.pLayer (PRESENT.sLayer PRESENT.sbox (PRESENT.encRounds ks 30 0 ^^^ ks 30)) := rfl
    rw [t, e30, h30]
    decide
  exact e31

/-- Claim C5: the PRESENT known-answer test.  The all-zero 128-bit key
(eight zero 16-bit words) and the all-zero 64-bit block encrypt to
04bd d5f4 eaef cc19. -/
theorem C5_present_kat :
    PRESENT.PRESENT_encrypt (PRESENT.PRESENT_init [0, 0, 0, 0, 0, 0, 0, 0] 128)
      (0, 0, 0, 0) = (0x04bd, 0xd5f4, 0xeaef, 0xcc19) := by
  rw [present_zero_schedule]
  simp only [PRESENT.PRESENT_encrypt]
  rw [show PRESENT.loadBlock (0, 0, 0, 0) = 0 from rfl]
  rw [present_zero_rounds (fun r => List.getD
      [0x0, 0xcc00000000000000, 0xcb00000000000000, 0x5b30000000000000,
       0x5b2c000000000001, 0x656cc00000000001, 0x6f6cb00000000001, 0xb595b30000000001,
       0xbfbdb2c000000002, 0xd6d656cc00000002, 0xdffef6cb00000002, 0x5b5b595b30000002,
       0x5b7ffbdb2c000003, 0xe56d6d656cc00003, 0xef6dffef6cb00003, 0xfb95b5b595b30003,
       0xfbbdb7ffbdb2c004, 0xbbee56d6d656cc04, 0xbbeef6dffef6cb04, 0xf6efb95b5b595b34,
       0xffefbbdb7ffbdb29, 0x6bdbbee56d6d6569, 0xbbffbeef6dffef69, 0x65af6efb95b5b590,
       0xcfeffefbbdb7ffbb, 0xf596bdbbee56d6d0, 0xcb3fbffbeef6dff8, 0xcfd65af6efb95b5d,
       0xbb2cfeffefbbdb78, 0x5f3f596bdbbee56a, 0xdeecb3fbffbeef6a, 0xdf7cfd65af6efb92] r 0)
    (by decide) (by decide) (by decide) (by decide) (by decide) (by decide) (by decide) (by decide) (by decide) (by decide) (by decide) (by decide) (by decide) (by decide) (by decide) (by decide)
    (by decide) (by decide) (by decide) (by decide) (by decide) (by decide) (by decide) (by decide) (by decide) (by decide) (by decide) (by decide) (by decide) (by decide) (by decide)]
  decide

set_option maxRecDepth 6000 in
/-- Claim C6: the ARIA known-answer test.  From the initial global state,
the block 00112233 44556677 8899aabb ccddeeff encrypts under the key
00010203 04050607 08090a0b 0c0d0e0f to d718fbd6 ab644c73 9da95f3b e6451778. -/
theorem C6_aria_kat :
    (ARIA.ARIA_encrypt ARIA.initState
      (0x00112233, 0x44556677, 0x8899aabb, 0xccddeeff)
      (0x00010203, 0x04050607, 0x08090a0b, 0x0c0d0e0f)).2 =
    (0xd718fbd6, 0xab644c73, 0x9da95f3b, 0xe6451778) := by
  decide

/-- Claim C7: the SIMON known-answer test.  The 128-bit key
0f0e0d0c0b0a0908 0706050403020100 and the block 6373656420737265
6c6c657661727420 encrypt to 49681b1e1e54fe3f 65aa832af84e0bbc. -/
theorem C7_simon_kat :
    SIMON.SIMON_encrypt (SIMON.SIMON_init [0x0f0e0d0c0b0a0908, 0x0706050403020100] 128)
      (0x6373656420737265, 0x6c6c657661727420) =
    (0x49681b1e1e54fe3f, 0x65aa832af84e0bbc) := by
  decide

/-- Claim C1: for every supported key size and block, decrypting the
encryption of a block under the schedule derived from the same key returns
the block — ARIA (128-bit key, from any global state with in-range KR,
decrypting right after encrypting), PRESENT (80- and 128-bit keys, 64-bit
block as four 16-bit words), SIMON (128-, 192- and 256-bit keys, 128-bit
block as two 64-bit words). -/
theorem C1_round_trip :
    (∀ s : ARIA.AriaState, ARIA.valid4 s.KR →
      ∀ block key : ARIA.Word4, ARIA.valid4 block → ARIA.valid4 key →
        (ARIA.ARIA_decrypt (ARIA.ARIA_encrypt s block key).1
          (ARIA.ARIA_encrypt s block key).2 key).2 = block) ∧
    (∀ key : List Nat, (∀ x ∈ key, x < 2 ^ 16) →
      ∀ keyLen : Nat, keyLen = 80 ∨ keyLen = 128 →
      ∀ b : Nat × Nat × Nat × Nat,
        b.1 < 2 ^ 16 → b.2.1 < 2 ^ 16 → b.2.2.1 < 2 ^ 16 → b.2.2.2 < 2 ^ 16 →
        PRESENT.PRESENT_decrypt (PRESENT.PRESENT_init key keyLen)
          (PRESENT.PRESENT_encrypt (PRESENT.PRESENT_init key keyLen) b) = b) ∧
    (∀ (key : List Nat) (keyLen : Nat),
      keyLen = 128 ∨ keyLen = 192 ∨ keyLen = 256 →
      ∀ b : Nat × Nat,
        SIMON.SIMON_decrypt (SIMON.SIMON_init key keyLen)
          (SIMON.SIMON_encrypt (SIMON.SIMON_init key keyLen) b) = b) := by
  refine ⟨?_, ?_, ?_⟩
  · intro s hKR block key hb hk
    exact ARIA.ARIA_decrypt_encrypt s hKR block key hb hk
  · intro key hkey keyLen _ b h1 h2 h3 h4
    exact PRESENT.PRESENT_decrypt_encrypt _ (PRESENT.PRESENT_init_lt key hkey keyLen)
      b h1 h2 h3 h4
  · intro key keyLen hLen b
    rcases hLen with h | h | h
    · subst h
      exact SIMON.SIMON_decrypt_encrypt _ b (Or.inl rfl)
    · subst h
      exact SIMON.SIMON_decrypt_encrypt _ b (Or.inr (Or.inl rfl))
    · subst h
      exact SIMON.SIMON_decrypt_encrypt _ b (Or.inr (Or.inr rfl))

/-- Witness for C1 at concrete keys and blocks for each of the three
ciphers (ARIA from the initial state, PRESENT with an 80-bit key, SIMON
with a 128-bit key). -/
theorem C1_round_trip_witness :
    (ARIA.ARIA_decrypt (ARIA.ARIA_encrypt ARIA.initState (1, 2, 3, 4) (5, 6, 7, 8)).1
      (ARIA.ARIA_encrypt ARIA.initState (1, 2, 3, 4) (5, 6, 7, 8)).2 (5, 6, 7, 8)).2 =
      (1, 2, 3, 4) ∧
    PRESENT.PRESENT_decrypt (PRESENT.PRESENT_init [1, 2, 3, 4, 5] 80)
      (PRESENT.PRESENT_encrypt (PRESENT.PRESENT_init [1, 2, 3, 4, 5] 80) (9, 8, 7, 6)) =
      (9, 8, 7, 6) ∧
    SIMON.SIMON_decrypt (SIMON.SIMON_init [33, 44] 128)
      (SIMON.SIMON_encrypt (SIMON.SIMON_init [33, 44] 128) (10, 20)) = (10, 20) :=
  ⟨C1_round_trip.1 ARIA.initState
      (by norm_num [ARIA.valid4, ARIA.initState, ARIA.zero4])
      (1, 2, 3, 4) (5, 6, 7, 8) (by norm_num [ARIA.valid4]) (by norm_num [ARIA.valid4]),
   C1_round_trip.2.1 [1, 2, 3, 4, 5] (by decide) 80 (Or.inl rfl) (9, 8, 7, 6)
      (by norm_num) (by norm_num) (by norm_num) (by norm_num),
   C1_round_trip.2.2 [33, 44] 128 (Or.inl rfl) (10, 20)⟩

/-- Claim C2 (amended): the ARIA encryption output is a pure function of
the block and key arguments — from any two global states reachable from
the initial state by sequences of encrypt and decrypt calls, `ARIA_encrypt`
returns the same output block, since the only global it reads, `KR`, is
never written.  (The original claim fails for `ARIA_decrypt`, which reads
the `ek` registers written by the most recent encryption:
see the counterexample.) -/
theorem C2_encrypt_pure (s1 s2 : ARIA.AriaState) (h1 : Reach s1) (h2 : Reach s2)
    (block key : ARIA.Word4) :
    (ARIA.ARIA_encrypt s1 block key).2 = (ARIA.ARIA_encrypt s2 block key).2 := by
  simp only [ARIA.ARIA_encrypt]
  rw [Reach_KR h1, Reach_KR h2]

/-- Witness for C2: encryption from the initial state and from the state
after an unrelated encryption give the same output block. -/
theorem C2_encrypt_pure_witness :
    (ARIA.ARIA_encrypt ARIA.initState (1, 2, 3, 4) (5, 6, 7, 8)).2 =
      (ARIA.ARIA_encrypt
        (ARIA.ARIA_encrypt ARIA.initState (21, 22, 23, 24) (25, 26, 27, 28)).1
        (1, 2, 3, 4) (5, 6, 7, 8)).2 :=
  C2_encrypt_pure ARIA.initState
    (ARIA.ARIA_encrypt ARIA.initState (21, 22, 23, 24) (25, 26, 27, 28)).1
    Reach.init (Reach.enc ARIA.initState (21, 22, 23, 24) (25, 26, 27, 28) Reach.init)
    (1, 2, 3, 4) (5, 6, 7, 8)

set_option maxRecDepth 6000 in
/-- Counterexample to C2 as stated: two `ARIA_decrypt` calls with identical
block and key arguments return different outputs when an encryption under
another key is interleaved between them. -/
theorem C2_decrypt_interference :
    (ARIA.ARIA_decrypt
        (ARIA.ARIA_encrypt ARIA.initState (1, 2, 3, 4) (5, 6, 7, 8)).1
        (9, 10, 11, 12) (5, 6, 7, 8)).2 ≠
      (ARIA.ARIA_decrypt
        (ARIA.ARIA_encrypt
          (ARIA.ARIA_encrypt ARIA.initState (1, 2, 3, 4) (5, 6, 7, 8)).1
          (1, 2, 3, 4) (90, 91, 92, 93)).1
        (9, 10, 11, 12) (5, 6, 7, 8)).2 := by
  decide

end CipherProofs
